import Mathlib

/-!
AmbientLightInterrupt: a shallow embedding of `examples/AmbientLightInterrupt/AmbientLightInterrupt.cpp`
(APDS-9960 ambient light interrupt example for the Raspberry Pi).

The program is three functions over a handful of globals: `setup`, `loop` and
`interruptRoutine`.  Globals become the fields of `State`; every call that leaves
the program (driver methods, wiringPi functions, `cout <<`) is appended, in program
order, to the `trace` field, so that the order of calls and of console output can be
stated.  The driver class `SparkFun_APDS9960` is declared in `APDS9960_RPi.h`, outside
this file: its methods are taken as a parameter, a record of functions over an
arbitrary driver state `D`.
-/

namespace AmbientLightInterrupt

/-! ## Platform and driver vocabulary -/

/-- Pin modes accepted by `pinMode`. -/
inductive PinMode
  | INPUT
  | OUTPUT
  deriving DecidableEq

/-- Output levels accepted by `digitalWrite`. -/
inductive Level
  | LOW
  | HIGH
  deriving DecidableEq

/-- Edge selections accepted by `wiringPiISR`. -/
inductive Edge
  | INT_EDGE_SETUP
  | INT_EDGE_FALLING
  | INT_EDGE_RISING
  | INT_EDGE_BOTH
  deriving DecidableEq

/-- Functions of this program that can be registered as interrupt handlers. -/
inductive Handler
  | interruptRoutine
  deriving DecidableEq

/-- Calls into the wiringPi platform layer, with their arguments. -/
inductive PlatformCall
  | wiringPiSetup
  | pinMode (pin : Nat) (mode : PinMode)
  | wiringPiISR (pin : Nat) (edge : Edge) (handler : Handler)
  | digitalWrite (pin : Nat) (value : Level)
  | delay (ms : Nat)
  deriving DecidableEq

/-- Calls of methods of the driver object `apds`, with their by-value arguments. -/
inductive DriverCall
  | init
  | setLightIntLowThreshold (threshold : Nat)
  | setLightIntHighThreshold (threshold : Nat)
  | enableLightSensor (interrupts : Bool)
  | getLightIntLowThreshold
  | getLightIntHighThreshold
  | setAmbientLightIntEnable (enable : Nat)
  | readAmbientLight
  | readRedLight
  | readGreenLight
  | readBlueLight
  | clearAmbientLightInt
  deriving DecidableEq

/-- Observable actions of the program, in the order they are performed.  The four
console constructors are the four `operator<<` overloads the program uses: a string
literal, an `int`, a `uint16_t`, and `endl`. -/
inductive Event
  | platform (c : PlatformCall)
  | driver (c : DriverCall)
  | cout (text : String)
  | coutInt (n : Int)
  | coutU16 (n : Nat)
  | endl
  deriving DecidableEq

/-- The driver class `SparkFun_APDS9960` of `APDS9960_RPi.h`, as far as this program
uses it: one function per method, over the driver's own state `D`.  Every method
returns its `bool` result first.  A method with a `uint16_t &` argument receives the
current value of the referenced variable and returns the value it leaves there. -/
structure SparkFun_APDS9960 (D : Type) where
  init : D → Bool × D
  setLightIntLowThreshold : Nat → D → Bool × D
  setLightIntHighThreshold : Nat → D → Bool × D
  enableLightSensor : Bool → D → Bool × D
  getLightIntLowThreshold : Nat → D → Bool × Nat × D
  getLightIntHighThreshold : Nat → D → Bool × Nat × D
  setAmbientLightIntEnable : Nat → D → Bool × D
  readAmbientLight : Nat → D → Bool × Nat × D
  readRedLight : Nat → D → Bool × Nat × D
  readGreenLight : Nat → D → Bool × Nat × D
  readBlueLight : Nat → D → Bool × Nat × D
  clearAmbientLightInt : D → Bool × D

/-! ## Constants and globals -/

/-- Pin of the sensor interrupt line: `#define APDS9960_INT 7`. -/
def APDS9960_INT : Nat := 7

/-- Pin of the indicator LED: `#define LED_PIN 0`. -/
def LED_PIN : Nat := 0

/-- High light level for the interrupt: `#define LIGHT_INT_HIGH 1000`. -/
def LIGHT_INT_HIGH : Nat := 1000

/-- Low light level for the interrupt: `#define LIGHT_INT_LOW 10`. -/
def LIGHT_INT_LOW : Nat := 10

/-- The global variables of the program, the driver object among them, together with
two histories that the program only ever appends to: `trace`, everything the program
has done to the outside so far, and `callFlags`, for each driver call made so far the
call and the value `isr_flag` had at the moment the call was made.  The four light
values and `threshold` are `uint16_t`; `isr_flag` is an `int`. -/
structure State (D : Type) where
  apds : D
  ambient_light : Nat
  red_light : Nat
  green_light : Nat
  blue_light : Nat
  isr_flag : Int
  threshold : Nat
  trace : List Event
  callFlags : List (DriverCall × Int)
  deriving DecidableEq

/-- The globals as initialised at program start, around a given driver object. -/
def State.start {D : Type} (d : D) : State D :=
  { apds := d, ambient_light := 0, red_light := 0, green_light := 0, blue_light := 0,
    isr_flag := 0, threshold := 0, trace := [], callFlags := [] }

/-- Truncation of a value stored into a `uint16_t`. -/
def u16 (v : Nat) : Nat := v % 65536

variable {D : Type}

/-! ## Console and platform primitives -/

/-- Append one observable action to the trace. -/
def emit (e : Event) (s : State D) : State D :=
  { s with trace := s.trace ++ [e] }

/-- Record a call of a driver method: the call goes to the trace, and the call with the
current value of `isr_flag` goes to `callFlags`. -/
def issue (c : DriverCall) (s : State D) : State D :=
  { s with
    trace := s.trace ++ [Event.driver c]
    callFlags := s.callFlags ++ [(c, s.isr_flag)] }

/-- Console write of a string literal: `cout << "..."`. -/
def cout (text : String) (s : State D) : State D := emit (Event.cout text) s

/-- Console write of an `int`: `cout << int(x)`. -/
def coutInt (n : Int) (s : State D) : State D := emit (Event.coutInt n) s

/-- Console write of a `uint16_t`: `cout << threshold`. -/
def coutU16 (n : Nat) (s : State D) : State D := emit (Event.coutU16 n) s

/-- Console line end: `<< endl`. -/
def endl (s : State D) : State D := emit Event.endl s

/-- Platform call `wiringPiSetup()`. -/
def wiringPiSetup (s : State D) : State D :=
  emit (Event.platform PlatformCall.wiringPiSetup) s

/-- Platform call `pinMode(pin, mode)`. -/
def pinMode (pin : Nat) (mode : PinMode) (s : State D) : State D :=
  emit (Event.platform (PlatformCall.pinMode pin mode)) s

/-- Platform call `wiringPiISR(pin, edge, handler)`. -/
def wiringPiISR (pin : Nat) (edge : Edge) (handler : Handler) (s : State D) : State D :=
  emit (Event.platform (PlatformCall.wiringPiISR pin edge handler)) s

/-- Platform call `digitalWrite(pin, value)`. -/
def digitalWrite (pin : Nat) (value : Level) (s : State D) : State D :=
  emit (Event.platform (PlatformCall.digitalWrite pin value)) s

/-- Platform call `delay(ms)`. -/
def delay (ms : Nat) (s : State D) : State D :=
  emit (Event.platform (PlatformCall.delay ms)) s

/-! ## Driver method calls on the global `apds` -/

/-- Call of `apds.init()`. -/
def apds_init (drv : SparkFun_APDS9960 D) (s : State D) : Bool × State D :=
  let r := drv.init s.apds
  (r.1, { issue DriverCall.init s with apds := r.2 })

/-- Call of `apds.setLightIntLowThreshold(v)`. -/
def apds_setLightIntLowThreshold (drv : SparkFun_APDS9960 D) (v : Nat) (s : State D) :
    Bool × State D :=
  let r := drv.setLightIntLowThreshold v s.apds
  (r.1, { issue (DriverCall.setLightIntLowThreshold v) s with apds := r.2 })

/-- Call of `apds.setLightIntHighThreshold(v)`. -/
def apds_setLightIntHighThreshold (drv : SparkFun_APDS9960 D) (v : Nat) (s : State D) :
    Bool × State D :=
  let r := drv.setLightIntHighThreshold v s.apds
  (r.1, { issue (DriverCall.setLightIntHighThreshold v) s with apds := r.2 })

/-- Call of `apds.enableLightSensor(b)`. -/
def apds_enableLightSensor (drv : SparkFun_APDS9960 D) (b : Bool) (s : State D) :
    Bool × State D :=
  let r := drv.enableLightSensor b s.apds
  (r.1, { issue (DriverCall.enableLightSensor b) s with apds := r.2 })

/-- Call of `apds.getLightIntLowThreshold(threshold)`. -/
def apds_getLightIntLowThreshold (drv : SparkFun_APDS9960 D) (s : State D) :
    Bool × State D :=
  let r := drv.getLightIntLowThreshold s.threshold s.apds
  (r.1, { issue DriverCall.getLightIntLowThreshold s with
            apds := r.2.2, threshold := u16 r.2.1 })

/-- Call of `apds.getLightIntHighThreshold(threshold)`. -/
def apds_getLightIntHighThreshold (drv : SparkFun_APDS9960 D) (s : State D) :
    Bool × State D :=
  let r := drv.getLightIntHighThreshold s.threshold s.apds
  (r.1, { issue DriverCall.getLightIntHighThreshold s with
            apds := r.2.2, threshold := u16 r.2.1 })

/-- Call of `apds.setAmbientLightIntEnable(v)`. -/
def apds_setAmbientLightIntEnable (drv : SparkFun_APDS9960 D) (v : Nat) (s : State D) :
    Bool × State D :=
  let r := drv.setAmbientLightIntEnable v s.apds
  (r.1, { issue (DriverCall.setAmbientLightIntEnable v) s with apds := r.2 })

/-- Call of `apds.readAmbientLight(ambient_light)`. -/
def apds_readAmbientLight (drv : SparkFun_APDS9960 D) (s : State D) : Bool × State D :=
  let r := drv.readAmbientLight s.ambient_light s.apds
  (r.1, { issue DriverCall.readAmbientLight s with
            apds := r.2.2, ambient_light := u16 r.2.1 })

/-- Call of `apds.readRedLight(red_light)`. -/
def apds_readRedLight (drv : SparkFun_APDS9960 D) (s : State D) : Bool × State D :=
  let r := drv.readRedLight s.red_light s.apds
  (r.1, { issue DriverCall.readRedLight s with
            apds := r.2.2, red_light := u16 r.2.1 })

/-- Call of `apds.readGreenLight(green_light)`. -/
def apds_readGreenLight (drv : SparkFun_APDS9960 D) (s : State D) : Bool × State D :=
  let r := drv.readGreenLight s.green_light s.apds
  (r.1, { issue DriverCall.readGreenLight s with
            apds := r.2.2, green_light := u16 r.2.1 })

/-- Call of `apds.readBlueLight(blue_light)`. -/
def apds_readBlueLight (drv : SparkFun_APDS9960 D) (s : State D) : Bool × State D :=
  let r := drv.readBlueLight s.blue_light s.apds
  (r.1, { issue DriverCall.readBlueLight s with
            apds := r.2.2, blue_light := u16 r.2.1 })

/-- Call of `apds.clearAmbientLightInt()`. -/
def apds_clearAmbientLightInt (drv : SparkFun_APDS9960 D) (s : State D) : Bool × State D :=
  let r := drv.clearAmbientLightInt s.apds
  (r.1, { issue DriverCall.clearAmbientLightInt s with apds := r.2 })

/-! ## The program -/

/-- The function `setup()` (source lines 64 to 122). -/
def setup (drv : SparkFun_APDS9960 D) (s : State D) : State D :=
  let s := wiringPiSetup s
  -- Set Interrupt Pin as an input
  let s := pinMode APDS9960_INT PinMode.INPUT s
  -- Set LED pin as output
  let s := pinMode LED_PIN PinMode.OUTPUT s
  let s := endl s
  let s := endl (cout "-------------------------------------" s)
  let s := endl (cout "SparkFun APDS-9960 - Light Interrupts" s)
  let s := endl (cout "-------------------------------------" s)
  -- Initialize interrupt service routine
  let s := wiringPiISR 0 Edge.INT_EDGE_FALLING Handler.interruptRoutine s
  -- Initialize APDS-9960 (configure I2C and initial values)
  let r := apds_init drv s
  let s := if r.1 then endl (cout "APDS-9960 initialization complete" r.2)
           else endl (cout "Something went wrong during APDS-9960 init!" r.2)
  -- Set high and low interrupt thresholds
  let r := apds_setLightIntLowThreshold drv LIGHT_INT_LOW s
  let s := if !r.1 then endl (cout "Error writing low threshold" r.2) else r.2
  let r := apds_setLightIntHighThreshold drv LIGHT_INT_HIGH s
  let s := if !r.1 then endl (cout "Error writing high threshold" r.2) else r.2
  -- Start running the APDS-9960 light sensor (no interrupts)
  let r := apds_enableLightSensor drv false s
  let s := if r.1 then endl (cout "Light sensor is now running" r.2)
           else endl (cout "Something went wrong during light sensor init!" r.2)
  -- Read high and low interrupt thresholds
  let r := apds_getLightIntLowThreshold drv s
  let s := if !r.1 then endl (cout "Error reading low threshold" r.2)
           else endl (coutU16 r.2.threshold (cout "Low Threshold: " r.2))
  let r := apds_getLightIntHighThreshold drv s
  let s := if !r.1 then endl (cout "Error reading high threshold" r.2)
           else endl (coutU16 r.2.threshold (cout "High Threshold: " r.2))
  -- Enable interrupts
  let r := apds_setAmbientLightIntEnable drv 1 s
  let s := if !r.1 then endl (cout "Error enabling interrupts" r.2) else r.2
  -- Wait for initialization and calibration to finish
  delay 500 s

/-- The condition of the `if` at source lines 129 to 132,
`!readAmbientLight(..) || !readRedLight(..) || !readGreenLight(..) || !readBlueLight(..)`:
its value, and the state its evaluation leaves.  The operator `||` evaluates its right
operand only when the left one is false. -/
def readLightLevels (drv : SparkFun_APDS9960 D) (s : State D) : Bool × State D :=
  let a := apds_readAmbientLight drv s
  if !a.1 then (true, a.2) else
  let r := apds_readRedLight drv a.2
  if !r.1 then (true, r.2) else
  let g := apds_readGreenLight drv r.2
  if !g.1 then (true, g.2) else
  let b := apds_readBlueLight drv g.2
  (!b.1, b.2)

/-- Read the light levels and print (source lines 128 to 143). -/
def loopReport (drv : SparkFun_APDS9960 D) (s : State D) : State D :=
  let c := readLightLevels drv s
  if c.1 then
    endl (cout "Error reading light values" c.2)
  else
    let s := cout "Interrupt! Ambient: " c.2
    let s := coutInt (Int.ofNat s.ambient_light) s
    let s := cout " R: " s
    let s := coutInt (Int.ofNat s.red_light) s
    let s := cout " G: " s
    let s := coutInt (Int.ofNat s.green_light) s
    let s := cout " B: " s
    endl (coutInt (Int.ofNat s.blue_light) s)

/-- The statement `isr_flag = 0;` (source line 151). -/
def loopReset (s : State D) : State D := { s with isr_flag := 0 }

/-- Clear the APDS-9960 interrupt and report a failure (source lines 152 to 154). -/
def loopClear (drv : SparkFun_APDS9960 D) (s : State D) : State D :=
  let r := apds_clearAmbientLightInt drv s
  if !r.1 then endl (cout "Error clearing interrupt" r.2) else r.2

/-- The function `loop()` (source lines 124 to 156): one iteration. -/
def loop (drv : SparkFun_APDS9960 D) (s : State D) : State D :=
  if s.isr_flag = 1 then
    let s := loopReport drv s
    -- Turn on LED for a half a second
    let s := digitalWrite LED_PIN Level.HIGH s
    let s := delay 500 s
    let s := digitalWrite LED_PIN Level.LOW s
    -- Reset flag and clear APDS-9960 interrupt
    let s := loopReset s
    loopClear drv s
  else s

/-- The function `interruptRoutine()` (source lines 158 to 161). -/
def interruptRoutine (s : State D) : State D := { s with isr_flag := 1 }

/-! ## Preemption by the interrupt handler

The handler may run at any point of an iteration of `loop`.  An iteration that found
the flag set is the sequence of statements `loopBody`; `runPreempted` runs such a
sequence with a given number of handler invocations before each statement and after
the last one. -/

/-- The statements of the `if` body of `loop()`, in program order. -/
def loopBody (drv : SparkFun_APDS9960 D) : List (State D → State D) :=
  [loopReport drv, digitalWrite LED_PIN Level.HIGH, delay 500,
   digitalWrite LED_PIN Level.LOW, loopReset, loopClear drv]

/-- Run statements in order; `ns` gives how many times `interruptRoutine` runs before
each statement, and then after the last one (missing entries count as zero). -/
def runPreempted : List (State D → State D) → List Nat → State D → State D
  | [], ns, s => interruptRoutine^[ns.headD 0] s
  | f :: fs, ns, s => runPreempted fs ns.tail (f (interruptRoutine^[ns.headD 0] s))

/-- One iteration of `loop()` during which the handler runs: the flag is tested
first, then the body runs with the handler invocations `ns` interleaved.  When the
test fails the body is skipped and only the handler invocations take place. -/
def loopPreempted (drv : SparkFun_APDS9960 D) (ns : List Nat) (s : State D) : State D :=
  if s.isr_flag = 1 then runPreempted (loopBody drv) ns s
  else interruptRoutine^[ns.sum] s

/-! ## Reading a trace -/

/-- Text that one observable action puts on the console. -/
def Event.text : Event → String
  | Event.cout t => t
  | Event.coutInt n => toString n
  | Event.coutU16 n => toString n
  | Event.endl => "\n"
  | _ => ""

/-- Console text produced by a trace. -/
def console : List Event → String
  | [] => ""
  | e :: es => e.text ++ console es

/-- Whether an action is a call of a driver method or of a platform function. -/
def Event.isCall : Event → Bool
  | Event.platform _ => true
  | Event.driver _ => true
  | _ => false

/-- Whether an action is a call of a driver method. -/
def Event.isDriverCall : Event → Bool
  | Event.driver _ => true
  | _ => false

/-- Whether an action is one of the four channel reads. -/
def Event.isRead : Event → Bool
  | Event.driver DriverCall.readAmbientLight => true
  | Event.driver DriverCall.readRedLight => true
  | Event.driver DriverCall.readGreenLight => true
  | Event.driver DriverCall.readBlueLight => true
  | _ => false

/-- Whether an action is a registration of an interrupt handler. -/
def Event.isRegistration : Event → Bool
  | Event.platform (PlatformCall.wiringPiISR _ _ _) => true
  | _ => false

/-- Whether an action writes to the console. -/
def Event.isOutput : Event → Bool
  | Event.cout _ => true
  | Event.coutInt _ => true
  | Event.coutU16 _ => true
  | Event.endl => true
  | _ => false

/-- The actions performed between an earlier state and a later one. -/
def newEvents (s later : State D) : List Event := later.trace.drop s.trace.length

/-! ## Concrete drivers -/

/-- A driver that replays a script: each method call consumes the next entry, which
gives the call's `bool` result and, for a method with a reference argument, the value
left in the referenced variable.  With the script exhausted, every call fails and
leaves the variable alone. -/
def scripted : SparkFun_APDS9960 (List (Bool × Nat)) :=
  let flag : List (Bool × Nat) → Bool × List (Bool × Nat) := fun d =>
    match d with
    | [] => (false, [])
    | r :: rest => (r.1, rest)
  let value : Nat → List (Bool × Nat) → Bool × Nat × List (Bool × Nat) := fun x d =>
    match d with
    | [] => (false, x, [])
    | r :: rest => (r.1, r.2, rest)
  { init := flag
    setLightIntLowThreshold := fun _ => flag
    setLightIntHighThreshold := fun _ => flag
    enableLightSensor := fun _ => flag
    getLightIntLowThreshold := value
    getLightIntHighThreshold := value
    setAmbientLightIntEnable := fun _ => flag
    readAmbientLight := value
    readRedLight := value
    readGreenLight := value
    readBlueLight := value
    clearAmbientLightInt := flag }

/-- A driver that keeps the two thresholds in a pair `(low, high)` of 16-bit registers:
`init` loads the defaults `(0, 65535)`, a set stores its argument truncated to 16 bits
and succeeds, a get succeeds and returns the stored value, and nothing else touches the
pair.  The remaining methods succeed, and the channel reads return 0. -/
def registerStore : SparkFun_APDS9960 (Nat × Nat) :=
  { init := fun _ => (true, (0, 65535))
    setLightIntLowThreshold := fun v d => (true, (v % 65536, d.2))
    setLightIntHighThreshold := fun v d => (true, (d.1, v % 65536))
    enableLightSensor := fun _ d => (true, d)
    getLightIntLowThreshold := fun _ d => (true, d.1, d)
    getLightIntHighThreshold := fun _ d => (true, d.2, d)
    setAmbientLightIntEnable := fun _ d => (true, d)
    readAmbientLight := fun _ d => (true, 0, d)
    readRedLight := fun _ d => (true, 0, d)
    readGreenLight := fun _ d => (true, 0, d)
    readBlueLight := fun _ d => (true, 0, d)
    clearAmbientLightInt := fun d => (true, d) }

/-! ## The steps of `setup()`

The statements of `setup()`, one definition per step, for reasoning about the
function one step at a time; `setup_eq_steps` shows that `setup` is their
composition. -/

/-- Platform bring-up and pin modes (source lines 66 to 71). -/
def setupPins (s : State D) : State D :=
  pinMode LED_PIN PinMode.OUTPUT (pinMode APDS9960_INT PinMode.INPUT (wiringPiSetup s))

/-- The banner (source lines 73 to 76). -/
def setupBanner (s : State D) : State D :=
  endl (cout "-------------------------------------"
    (endl (cout "SparkFun APDS-9960 - Light Interrupts"
      (endl (cout "-------------------------------------" (endl s))))))

/-- Registration of the handler (source line 79). -/
def setupRegister (s : State D) : State D :=
  wiringPiISR 0 Edge.INT_EDGE_FALLING Handler.interruptRoutine s

/-- Driver initialisation (source lines 82 to 86). -/
def setupInit (drv : SparkFun_APDS9960 D) (s : State D) : State D :=
  let r := apds_init drv s
  if r.1 then endl (cout "APDS-9960 initialization complete" r.2)
  else endl (cout "Something went wrong during APDS-9960 init!" r.2)

/-- Write of the low threshold (source lines 89 to 91). -/
def setupWriteLow (drv : SparkFun_APDS9960 D) (s : State D) : State D :=
  let r := apds_setLightIntLowThreshold drv LIGHT_INT_LOW s
  if !r.1 then endl (cout "Error writing low threshold" r.2) else r.2

/-- Write of the high threshold (source lines 92 to 94). -/
def setupWriteHigh (drv : SparkFun_APDS9960 D) (s : State D) : State D :=
  let r := apds_setLightIntHighThreshold drv LIGHT_INT_HIGH s
  if !r.1 then endl (cout "Error writing high threshold" r.2) else r.2

/-- Start of the light sensor (source lines 97 to 101). -/
def setupEnable (drv : SparkFun_APDS9960 D) (s : State D) : State D :=
  let r := apds_enableLightSensor drv false s
  if r.1 then endl (cout "Light sensor is now running" r.2)
  else endl (cout "Something went wrong during light sensor init!" r.2)

/-- Read-back of the low threshold (source lines 104 to 108). -/
def setupReadLow (drv : SparkFun_APDS9960 D) (s : State D) : State D :=
  let r := apds_getLightIntLowThreshold drv s
  if !r.1 then endl (cout "Error reading low threshold" r.2)
  else endl (coutU16 r.2.threshold (cout "Low Threshold: " r.2))

/-- Read-back of the high threshold (source lines 109 to 113). -/
def setupReadHigh (drv : SparkFun_APDS9960 D) (s : State D) : State D :=
  let r := apds_getLightIntHighThreshold drv s
  if !r.1 then endl (cout "Error reading high threshold" r.2)
  else endl (coutU16 r.2.threshold (cout "High Threshold: " r.2))

/-- Enabling of the sensor interrupt (source lines 116 to 118). -/
def setupIntEnable (drv : SparkFun_APDS9960 D) (s : State D) : State D :=
  let r := apds_setAmbientLightIntEnable drv 1 s
  if !r.1 then endl (cout "Error enabling interrupts" r.2) else r.2

/-! ## Names for what the driver answers

The properties proved below speak of the results of driver calls.  These definitions
name them:
the result of each call when the calls are issued one after the other on the state
the function finds, each on the driver state the previous one left. -/

/-- Result of `readAmbientLight` issued on the driver as the iteration finds it. -/
def ambientResult (drv : SparkFun_APDS9960 D) (s : State D) : Bool × Nat × D :=
  drv.readAmbientLight s.ambient_light s.apds

/-- Result of `readRedLight` issued after the ambient read. -/
def redResult (drv : SparkFun_APDS9960 D) (s : State D) : Bool × Nat × D :=
  drv.readRedLight s.red_light (ambientResult drv s).2.2

/-- Result of `readGreenLight` issued after the ambient and red reads. -/
def greenResult (drv : SparkFun_APDS9960 D) (s : State D) : Bool × Nat × D :=
  drv.readGreenLight s.green_light (redResult drv s).2.2

/-- Result of `readBlueLight` issued after the ambient, red and green reads. -/
def blueResult (drv : SparkFun_APDS9960 D) (s : State D) : Bool × Nat × D :=
  drv.readBlueLight s.blue_light (greenResult drv s).2.2

/-- Whether the four reads, issued one after the other, all succeed. -/
def allReadsOk (drv : SparkFun_APDS9960 D) (s : State D) : Bool :=
  (ambientResult drv s).1 && (redResult drv s).1 && (greenResult drv s).1 &&
    (blueResult drv s).1

/-- The channel reads up to and including the first one that fails (all four when
the first three succeed), in the order ambient, red, green, blue. -/
def readsIssued (drv : SparkFun_APDS9960 D) (s : State D) : List Event :=
  if (ambientResult drv s).1 = false then [Event.driver DriverCall.readAmbientLight]
  else if (redResult drv s).1 = false then
    [Event.driver DriverCall.readAmbientLight, Event.driver DriverCall.readRedLight]
  else if (greenResult drv s).1 = false then
    [Event.driver DriverCall.readAmbientLight, Event.driver DriverCall.readRedLight,
     Event.driver DriverCall.readGreenLight]
  else
    [Event.driver DriverCall.readAmbientLight, Event.driver DriverCall.readRedLight,
     Event.driver DriverCall.readGreenLight, Event.driver DriverCall.readBlueLight]

/-- The driver methods behind `readsIssued`, in the same order. -/
def readCallsIssued (drv : SparkFun_APDS9960 D) (s : State D) : List DriverCall :=
  if (ambientResult drv s).1 = false then [DriverCall.readAmbientLight]
  else if (redResult drv s).1 = false then
    [DriverCall.readAmbientLight, DriverCall.readRedLight]
  else if (greenResult drv s).1 = false then
    [DriverCall.readAmbientLight, DriverCall.readRedLight, DriverCall.readGreenLight]
  else
    [DriverCall.readAmbientLight, DriverCall.readRedLight, DriverCall.readGreenLight,
     DriverCall.readBlueLight]

/-- Console actions of the read/report step, from the results of the reads. -/
def reportEvents (drv : SparkFun_APDS9960 D) (s : State D) : List Event :=
  if allReadsOk drv s = true then
    [Event.cout "Interrupt! Ambient: ",
     Event.coutInt (Int.ofNat (u16 (ambientResult drv s).2.1)),
     Event.cout " R: ", Event.coutInt (Int.ofNat (u16 (redResult drv s).2.1)),
     Event.cout " G: ", Event.coutInt (Int.ofNat (u16 (greenResult drv s).2.1)),
     Event.cout " B: ", Event.coutInt (Int.ofNat (u16 (blueResult drv s).2.1)),
     Event.endl]
  else [Event.cout "Error reading light values", Event.endl]

/-- Actions of the indicator pulse: LED on, half a second, LED off. -/
def pulseEvents : List Event :=
  [Event.platform (PlatformCall.digitalWrite LED_PIN Level.HIGH),
   Event.platform (PlatformCall.delay 500),
   Event.platform (PlatformCall.digitalWrite LED_PIN Level.LOW)]

/-- Console actions that follow the clear call, from its result. -/
def clearReport (ok : Bool) : List Event :=
  if ok = true then [] else [Event.cout "Error clearing interrupt", Event.endl]

/-- The state in which a triggered iteration of `loop()` reaches the call of
`clearAmbientLightInt` (source lines 128 to 151). -/
def loopUntilClear (drv : SparkFun_APDS9960 D) (s : State D) : State D :=
  loopReset (digitalWrite LED_PIN Level.LOW (delay 500
    (digitalWrite LED_PIN Level.HIGH (loopReport drv s))))

/-- Result of `init` issued on the driver as `setup()` finds it. -/
def initResult (drv : SparkFun_APDS9960 D) (s : State D) : Bool × D :=
  drv.init s.apds

/-- Result of `setLightIntLowThreshold(LIGHT_INT_LOW)` issued after `init`. -/
def setLowResult (drv : SparkFun_APDS9960 D) (s : State D) : Bool × D :=
  drv.setLightIntLowThreshold LIGHT_INT_LOW (initResult drv s).2

/-- Result of `setLightIntHighThreshold(LIGHT_INT_HIGH)` issued next. -/
def setHighResult (drv : SparkFun_APDS9960 D) (s : State D) : Bool × D :=
  drv.setLightIntHighThreshold LIGHT_INT_HIGH (setLowResult drv s).2

/-- Result of `enableLightSensor(false)` issued next. -/
def enableResult (drv : SparkFun_APDS9960 D) (s : State D) : Bool × D :=
  drv.enableLightSensor false (setHighResult drv s).2

/-- Result of `getLightIntLowThreshold(threshold)` issued next. -/
def getLowResult (drv : SparkFun_APDS9960 D) (s : State D) : Bool × Nat × D :=
  drv.getLightIntLowThreshold s.threshold (enableResult drv s).2

/-- Result of `getLightIntHighThreshold(threshold)` issued next, `threshold` holding
what the low read left in it. -/
def getHighResult (drv : SparkFun_APDS9960 D) (s : State D) : Bool × Nat × D :=
  drv.getLightIntHighThreshold (u16 (getLowResult drv s).2.1) (getLowResult drv s).2.2

/-- Result of `setAmbientLightIntEnable(1)` issued last. -/
def intEnableResult (drv : SparkFun_APDS9960 D) (s : State D) : Bool × D :=
  drv.setAmbientLightIntEnable 1 (getHighResult drv s).2.2

/-- The banner `setup()` writes first. -/
def bannerEvents : List Event :=
  [Event.endl,
   Event.cout "-------------------------------------", Event.endl,
   Event.cout "SparkFun APDS-9960 - Light Interrupts", Event.endl,
   Event.cout "-------------------------------------", Event.endl]

/-- Console actions that follow `init`, from its result. -/
def initReport : Bool → List Event
  | true => [Event.cout "APDS-9960 initialization complete", Event.endl]
  | false => [Event.cout "Something went wrong during APDS-9960 init!", Event.endl]

/-- Console actions that follow `setLightIntLowThreshold`, from its result. -/
def writeLowReport : Bool → List Event
  | true => []
  | false => [Event.cout "Error writing low threshold", Event.endl]

/-- Console actions that follow `setLightIntHighThreshold`, from its result. -/
def writeHighReport : Bool → List Event
  | true => []
  | false => [Event.cout "Error writing high threshold", Event.endl]

/-- Console actions that follow `enableLightSensor`, from its result. -/
def enableReport : Bool → List Event
  | true => [Event.cout "Light sensor is now running", Event.endl]
  | false => [Event.cout "Something went wrong during light sensor init!", Event.endl]

/-- Console actions that follow `getLightIntLowThreshold`, from its result and the
value it left in `threshold`. -/
def readLowReport : Bool → Nat → List Event
  | true, v => [Event.cout "Low Threshold: ", Event.coutU16 (u16 v), Event.endl]
  | false, _ => [Event.cout "Error reading low threshold", Event.endl]

/-- Console actions that follow `getLightIntHighThreshold`, from its result and the
value it left in `threshold`. -/
def readHighReport : Bool → Nat → List Event
  | true, v => [Event.cout "High Threshold: ", Event.coutU16 (u16 v), Event.endl]
  | false, _ => [Event.cout "Error reading high threshold", Event.endl]

/-- Console actions that follow `setAmbientLightIntEnable`, from its result. -/
def intEnableReport : Bool → List Event
  | true => []
  | false => [Event.cout "Error enabling interrupts", Event.endl]

/-- The actions of `setup()` as the startup sequence describes them, from the results
of the seven driver calls (`okInit`, `okLow`, `okHigh`, `okEnable`, `okGetLow` with the
value `low` left in `threshold`, `okGetHigh` with the value `high`, `okInt`): every step
is taken, and the results select only the text that follows each call. -/
def setupEventsOf (okInit okLow okHigh okEnable okGetLow : Bool) (low : Nat)
    (okGetHigh : Bool) (high : Nat) (okInt : Bool) : List Event :=
  [Event.platform PlatformCall.wiringPiSetup,
   Event.platform (PlatformCall.pinMode APDS9960_INT PinMode.INPUT),
   Event.platform (PlatformCall.pinMode LED_PIN PinMode.OUTPUT)] ++
  bannerEvents ++
  [Event.platform (PlatformCall.wiringPiISR 0 Edge.INT_EDGE_FALLING Handler.interruptRoutine),
   Event.driver DriverCall.init] ++
  initReport okInit ++
  [Event.driver (DriverCall.setLightIntLowThreshold LIGHT_INT_LOW)] ++
  writeLowReport okLow ++
  [Event.driver (DriverCall.setLightIntHighThreshold LIGHT_INT_HIGH)] ++
  writeHighReport okHigh ++
  [Event.driver (DriverCall.enableLightSensor false)] ++
  enableReport okEnable ++
  [Event.driver DriverCall.getLightIntLowThreshold] ++
  readLowReport okGetLow low ++
  [Event.driver DriverCall.getLightIntHighThreshold] ++
  readHighReport okGetHigh high ++
  [Event.driver (DriverCall.setAmbientLightIntEnable 1)] ++
  intEnableReport okInt ++
  [Event.platform (PlatformCall.delay 500)]

/-- The actions of `setup()` on a given driver and state: `setupEventsOf` at the
results the driver gives. -/
def setupEvents (drv : SparkFun_APDS9960 D) (s : State D) : List Event :=
  setupEventsOf (initResult drv s).1 (setLowResult drv s).1 (setHighResult drv s).1
    (enableResult drv s).1 (getLowResult drv s).1 (getLowResult drv s).2.1
    (getHighResult drv s).1 (getHighResult drv s).2.1 (intEnableResult drv s).1

/-- The assumption of the threshold round trip: the driver is a faithful store of a low
and a high threshold (`low d` and `high d` in driver state `d`).  A set call with a
16-bit argument completes, that is, it returns success and the argument is then the
stored value; a get returns success and the stored value; and the calls `setup()` makes
between a write and its read-back (the other set, `enableLightSensor`, the other get)
leave the stored value alone.  Nothing is assumed of `init`, which runs before the
writes. -/
structure FaithfulStore (drv : SparkFun_APDS9960 D) (low high : D → Nat) : Prop where
  setLow_ok : ∀ v d, v < 65536 → (drv.setLightIntLowThreshold v d).1 = true
  setLow_low : ∀ v d, v < 65536 → low (drv.setLightIntLowThreshold v d).2 = v
  setHigh_ok : ∀ v d, v < 65536 → (drv.setLightIntHighThreshold v d).1 = true
  setHigh_high : ∀ v d, v < 65536 → high (drv.setLightIntHighThreshold v d).2 = v
  setHigh_low : ∀ v d, v < 65536 → low (drv.setLightIntHighThreshold v d).2 = low d
  enable_low : ∀ b d, low (drv.enableLightSensor b d).2 = low d
  enable_high : ∀ b d, high (drv.enableLightSensor b d).2 = high d
  getLow_ok : ∀ x d, (drv.getLightIntLowThreshold x d).1 = true
  getLow_value : ∀ x d, (drv.getLightIntLowThreshold x d).2.1 = low d
  getLow_high : ∀ x d, high (drv.getLightIntLowThreshold x d).2.2 = high d
  getHigh_ok : ∀ x d, (drv.getLightIntHighThreshold x d).1 = true
  getHigh_value : ∀ x d, (drv.getLightIntHighThreshold x d).2.1 = high d

/-! ## Sample states -/

/-- The handler has fired; the sensor will answer 100, 40, 35, 25 and the clear call
will succeed. -/
def brightRoom : State (List (Bool × Nat)) :=
  interruptRoutine (State.start [(true, 100), (true, 40), (true, 35), (true, 25), (true, 0)])

/-- The handler has fired; the ambient read will fail. -/
def ambientFailure : State (List (Bool × Nat)) :=
  interruptRoutine (State.start [(false, 0), (true, 40), (true, 35), (true, 25), (true, 0)])

/-- The handler has fired; the red read will fail, and the clear call, which consumes
the entry after it, will succeed. -/
def redFailure : State (List (Bool × Nat)) :=
  interruptRoutine (State.start [(true, 100), (false, 0), (true, 35), (true, 25), (false, 0)])

/-- The handler has fired; the four reads will succeed and the clear call will fail. -/
def clearFailure : State (List (Bool × Nat)) :=
  interruptRoutine (State.start [(true, 100), (true, 40), (true, 35), (true, 25), (false, 0)])

/-! ## Lemmas on one iteration of `loop` -/

theorem newEvents_of_trace {s later : State D} {l : List Event}
    (h : later.trace = s.trace ++ l) : newEvents s later = l := by
  simp [newEvents, h]

theorem newEvents_self (s : State D) : newEvents s s = [] := by
  simp [newEvents]

theorem readsIssued_isRead (drv : SparkFun_APDS9960 D) (s : State D) :
    ∀ e ∈ readsIssued drv s, e.isRead = true := by
  simp only [readsIssued]
  split_ifs <;> simp [Event.isRead]

theorem loopReport_trace (drv : SparkFun_APDS9960 D) (s : State D) :
    (loopReport drv s).trace = s.trace ++ (readsIssued drv s ++ reportEvents drv s) := by
  simp only [loopReport, reportEvents, readsIssued, allReadsOk, ambientResult, redResult,
    greenResult, blueResult, readLightLevels, apds_readAmbientLight, apds_readRedLight,
    apds_readGreenLight, apds_readBlueLight, emit, issue, cout, coutInt, endl]
  split_ifs <;> simp_all

theorem loopReport_flag (drv : SparkFun_APDS9960 D) (s : State D) :
    (loopReport drv s).isr_flag = s.isr_flag := by
  simp only [loopReport, readLightLevels, apds_readAmbientLight, apds_readRedLight,
    apds_readGreenLight, apds_readBlueLight, emit, issue, cout, coutInt, endl]
  split_ifs <;> simp_all

theorem loop_triggered (drv : SparkFun_APDS9960 D) (s : State D) (h : s.isr_flag = 1) :
    loop drv s = loopClear drv (loopUntilClear drv s) := by
  simp [loop, loopUntilClear, h]

theorem loop_idle (drv : SparkFun_APDS9960 D) (s : State D) (h : s.isr_flag ≠ 1) :
    loop drv s = s := by
  simp [loop, h]

theorem loopUntilClear_trace (drv : SparkFun_APDS9960 D) (s : State D) :
    (loopUntilClear drv s).trace =
      s.trace ++ (readsIssued drv s ++ reportEvents drv s ++ pulseEvents) := by
  simp [loopUntilClear, loopReset, digitalWrite, delay, emit, loopReport_trace, pulseEvents]

theorem loopUntilClear_flag (drv : SparkFun_APDS9960 D) (s : State D) :
    (loopUntilClear drv s).isr_flag = 0 := by
  simp [loopUntilClear, loopReset]

theorem loopUntilClear_apds (drv : SparkFun_APDS9960 D) (s : State D) :
    (loopUntilClear drv s).apds = (loopReport drv s).apds := by
  simp [loopUntilClear, loopReset, digitalWrite, delay, emit]

theorem loopClear_trace (drv : SparkFun_APDS9960 D) (s : State D) :
    (loopClear drv s).trace = s.trace ++
      (Event.driver DriverCall.clearAmbientLightInt ::
        clearReport (drv.clearAmbientLightInt s.apds).1) := by
  simp only [loopClear, apds_clearAmbientLightInt, clearReport, emit, issue, cout, endl]
  split_ifs <;> simp_all

theorem loopClear_flag (drv : SparkFun_APDS9960 D) (s : State D) :
    (loopClear drv s).isr_flag = s.isr_flag := by
  simp only [loopClear, apds_clearAmbientLightInt, emit, issue, cout, endl]
  split_ifs <;> simp_all

theorem loop_cycle_trace (drv : SparkFun_APDS9960 D) (s : State D) (h : s.isr_flag = 1) :
    (loop drv s).trace = s.trace ++ (readsIssued drv s ++ reportEvents drv s ++ pulseEvents ++
      Event.driver DriverCall.clearAmbientLightInt ::
        clearReport (drv.clearAmbientLightInt (loopReport drv s).apds).1) := by
  rw [loop_triggered drv s h, loopClear_trace, loopUntilClear_trace, loopUntilClear_apds]
  simp

theorem loop_cycle_flag (drv : SparkFun_APDS9960 D) (s : State D) (h : s.isr_flag = 1) :
    (loop drv s).isr_flag = 0 := by
  rw [loop_triggered drv s h, loopClear_flag, loopUntilClear_flag]

/-! ## Properties of `loop` and `interruptRoutine` -/

/-- C1: in an iteration of `loop()` that finds `isr_flag == 1` and in which at least one
of the four channel reads fails (whichever ones), the iteration writes the line
"Error reading light values" and no light value, then performs the indicator pulse
(LED_PIN HIGH, delay 500, LED_PIN LOW), and then calls `clearAmbientLightInt`; at its
end `isr_flag` is 0. -/
theorem loop_read_failure_completes_cycle (drv : SparkFun_APDS9960 D) (s : State D)
    (hflag : s.isr_flag = 1)
    (hfail : (ambientResult drv s).1 = false ∨ (redResult drv s).1 = false ∨
      (greenResult drv s).1 = false ∨ (blueResult drv s).1 = false) :
    (∃ reads : List Event, (∀ e ∈ reads, e.isRead = true) ∧
      (loop drv s).trace = s.trace ++ reads ++
        [Event.cout "Error reading light values", Event.endl,
         Event.platform (PlatformCall.digitalWrite LED_PIN Level.HIGH),
         Event.platform (PlatformCall.delay 500),
         Event.platform (PlatformCall.digitalWrite LED_PIN Level.LOW),
         Event.driver DriverCall.clearAmbientLightInt] ++
        (if (drv.clearAmbientLightInt (loopReport drv s).apds).1 = true then []
         else [Event.cout "Error clearing interrupt", Event.endl])) ∧
    console (newEvents s (loopReport drv s)) = "Error reading light values\n" ∧
    (∀ n : Int, Event.coutInt n ∉ newEvents s (loop drv s)) ∧
    (loop drv s).isr_flag = 0 := by
  have hno : allReadsOk drv s = false := by
    simp only [allReadsOk]
    rcases hfail with h | h | h | h <;> simp [h]
  have hrep : reportEvents drv s = [Event.cout "Error reading light values", Event.endl] := by
    simp [reportEvents, hno]
  refine ⟨⟨readsIssued drv s, readsIssued_isRead drv s, ?_⟩, ?_, ?_,
    loop_cycle_flag drv s hflag⟩
  · rw [loop_cycle_trace drv s hflag, hrep]
    simp [pulseEvents, clearReport]
  · rw [newEvents_of_trace (loopReport_trace drv s), hrep]
    simp only [readsIssued]
    split_ifs <;> rfl
  · intro n
    rw [newEvents_of_trace (loop_cycle_trace drv s hflag), hrep]
    simp only [readsIssued, pulseEvents, clearReport]
    split_ifs <;> simp

/-- Witness for C1 on `redFailure`: the ambient read succeeds, the red read fails. -/
theorem loop_read_failure_completes_cycle_witness :
    redFailure.isr_flag = 1 ∧
    ((ambientResult scripted redFailure).1 = false ∨
      (redResult scripted redFailure).1 = false ∨
      (greenResult scripted redFailure).1 = false ∨
      (blueResult scripted redFailure).1 = false) ∧
    ((∃ reads : List Event, (∀ e ∈ reads, e.isRead = true) ∧
      (loop scripted redFailure).trace = redFailure.trace ++ reads ++
        [Event.cout "Error reading light values", Event.endl,
         Event.platform (PlatformCall.digitalWrite LED_PIN Level.HIGH),
         Event.platform (PlatformCall.delay 500),
         Event.platform (PlatformCall.digitalWrite LED_PIN Level.LOW),
         Event.driver DriverCall.clearAmbientLightInt] ++
        (if (scripted.clearAmbientLightInt (loopReport scripted redFailure).apds).1 = true
         then [] else [Event.cout "Error clearing interrupt", Event.endl])) ∧
    console (newEvents redFailure (loopReport scripted redFailure)) =
      "Error reading light values\n" ∧
    (∀ n : Int, Event.coutInt n ∉ newEvents redFailure (loop scripted redFailure)) ∧
    (loop scripted redFailure).isr_flag = 0) :=
  ⟨by decide, by decide,
    loop_read_failure_completes_cycle scripted redFailure (by decide) (by decide)⟩


theorem cycle_counts (drv : SparkFun_APDS9960 D) (s : State D) (h : s.isr_flag = 1) :
    (newEvents s (loop drv s)).count (Event.driver DriverCall.clearAmbientLightInt) = 1 ∧
    (newEvents s (loop drv s)).count
      (Event.platform (PlatformCall.digitalWrite LED_PIN Level.HIGH)) = 1 ∧
    (newEvents s (loop drv s)).count (Event.platform (PlatformCall.delay 500)) = 1 ∧
    (newEvents s (loop drv s)).count
      (Event.platform (PlatformCall.digitalWrite LED_PIN Level.LOW)) = 1 ∧
    (newEvents s (loop drv s)).count (Event.cout "Error reading light values") +
      (newEvents s (loop drv s)).count (Event.cout "Interrupt! Ambient: ") = 1 := by
  rw [newEvents_of_trace (loop_cycle_trace drv s h)]
  simp only [readsIssued, reportEvents, pulseEvents, clearReport]
  refine ⟨?_, ?_, ?_, ?_, ?_⟩ <;> split_ifs <;>
    simp only [List.count_append, List.count_cons, List.count_nil, List.append_eq,
      List.cons_append, List.nil_append, beq_iff_eq, reduceCtorEq, if_false, if_true,
      Event.cout.injEq, String.reduceEq, Event.platform.injEq, Event.driver.injEq,
      PlatformCall.digitalWrite.injEq, and_false, true_and, and_self, and_true]


theorem loopUntilClear_no_clear (drv : SparkFun_APDS9960 D) (s : State D) :
    (newEvents s (loopUntilClear drv s)).count
      (Event.driver DriverCall.clearAmbientLightInt) = 0 := by
  rw [newEvents_of_trace (loopUntilClear_trace drv s)]
  simp only [readsIssued, reportEvents, pulseEvents]
  split_ifs <;>
    simp only [List.count_append, List.count_cons, List.count_nil, List.append_eq,
      List.cons_append, List.nil_append, beq_iff_eq, reduceCtorEq, if_false, if_true,
      Event.driver.injEq]

theorem cycle_error_count (drv : SparkFun_APDS9960 D) (s : State D) (h : s.isr_flag = 1) :
    (newEvents s (loop drv s)).count (Event.cout "Error clearing interrupt") =
      if (drv.clearAmbientLightInt (loopReport drv s).apds).1 = true then 0 else 1 := by
  rw [newEvents_of_trace (loop_cycle_trace drv s h)]
  simp only [readsIssued, reportEvents, pulseEvents, clearReport]
  split_ifs <;>
    simp only [List.count_append, List.count_cons, List.count_nil, List.append_eq,
      List.cons_append, List.nil_append, beq_iff_eq, reduceCtorEq, if_false, if_true,
      Event.cout.injEq, String.reduceEq]

theorem iterate_interruptRoutine (s : State D) (n : Nat) (hn : 1 ≤ n) :
    interruptRoutine^[n] s = interruptRoutine s := by
  induction n with
  | zero => omega
  | succ k ih =>
    rcases Nat.eq_zero_or_pos k with hk | hk
    · subst hk; rfl
    · rw [Function.iterate_succ_apply', ih hk]; rfl

theorem interruptRoutine_of_flag (s : State D) (h : s.isr_flag = 1) :
    interruptRoutine s = s := by
  cases s
  simp only [interruptRoutine] at *
  simp [h]

theorem iterate_interruptRoutine_of_flag (s : State D) (n : Nat) (h : s.isr_flag = 1) :
    interruptRoutine^[n] s = s := by
  rcases Nat.eq_zero_or_pos n with hn | hn
  · subst hn; rfl
  · rw [iterate_interruptRoutine s n hn, interruptRoutine_of_flag s h]

theorem iterate_loop (drv : SparkFun_APDS9960 D) (s : State D) (m : Nat) (hm : 1 ≤ m)
    (h : s.isr_flag = 1) : (loop drv)^[m] s = loop drv s := by
  induction m with
  | zero => omega
  | succ k ih =>
    rcases Nat.eq_zero_or_pos k with hk | hk
    · subst hk; rfl
    · rw [Function.iterate_succ_apply', ih hk]
      apply loop_idle
      rw [loop_cycle_flag drv s h]
      decide

theorem readCallsIssued_no_clear (drv : SparkFun_APDS9960 D) (s : State D) :
    DriverCall.clearAmbientLightInt ∉ readCallsIssued drv s := by
  simp only [readCallsIssued]
  split_ifs <;> decide

theorem loopReport_callFlags (drv : SparkFun_APDS9960 D) (s : State D) :
    (loopReport drv s).callFlags =
      s.callFlags ++ (readCallsIssued drv s).map (fun c => (c, s.isr_flag)) := by
  simp only [loopReport, readCallsIssued, ambientResult, redResult, greenResult,
    readLightLevels, apds_readAmbientLight, apds_readRedLight, apds_readGreenLight,
    apds_readBlueLight, emit, issue, cout, coutInt, endl]
  split_ifs <;> simp_all

theorem loopClear_callFlags (drv : SparkFun_APDS9960 D) (s : State D) :
    (loopClear drv s).callFlags =
      s.callFlags ++ [(DriverCall.clearAmbientLightInt, s.isr_flag)] := by
  simp only [loopClear, apds_clearAmbientLightInt, emit, issue, cout, endl]
  split_ifs <;> simp_all

theorem loopUntilClear_callFlags (drv : SparkFun_APDS9960 D) (s : State D) :
    (loopUntilClear drv s).callFlags = (loopReport drv s).callFlags := by
  simp [loopUntilClear, loopReset, digitalWrite, delay, emit]

/-- C2: in every iteration of `loop()` that finds `isr_flag == 1`, whatever the reads
and the clear call return, `clearAmbientLightInt` is called exactly once; it is called
after the reset: `isr_flag` is 0 at the moment of the clear call, while it is still 1
at the moment of every call made before it, and the call is made in the state
`loopUntilClear` leaves, in which no clear call has been made yet; `isr_flag` is 0 when
the iteration ends; and "Error clearing interrupt" is written exactly once when the
clear call fails (and not at all when it succeeds). -/
theorem loop_clears_interrupt_once (drv : SparkFun_APDS9960 D) (s : State D)
    (hflag : s.isr_flag = 1) :
    (newEvents s (loop drv s)).count (Event.driver DriverCall.clearAmbientLightInt) = 1 ∧
    (∃ reads : List DriverCall, DriverCall.clearAmbientLightInt ∉ reads ∧
      (loop drv s).callFlags = s.callFlags ++ reads.map (fun c => (c, (1 : Int))) ++
        [(DriverCall.clearAmbientLightInt, (0 : Int))]) ∧
    loop drv s = loopClear drv (loopUntilClear drv s) ∧
    (loopUntilClear drv s).isr_flag = 0 ∧
    (newEvents s (loopUntilClear drv s)).count
      (Event.driver DriverCall.clearAmbientLightInt) = 0 ∧
    (loop drv s).trace = (loopUntilClear drv s).trace ++
      Event.driver DriverCall.clearAmbientLightInt ::
        (if (drv.clearAmbientLightInt (loopUntilClear drv s).apds).1 = true then []
         else [Event.cout "Error clearing interrupt", Event.endl]) ∧
    (loop drv s).isr_flag = 0 ∧
    ((drv.clearAmbientLightInt (loopUntilClear drv s).apds).1 = false →
      (newEvents s (loop drv s)).count (Event.cout "Error clearing interrupt") = 1) ∧
    ((drv.clearAmbientLightInt (loopUntilClear drv s).apds).1 = true →
      (newEvents s (loop drv s)).count (Event.cout "Error clearing interrupt") = 0) := by
  refine ⟨(cycle_counts drv s hflag).1, ?_, loop_triggered drv s hflag,
    loopUntilClear_flag drv s, loopUntilClear_no_clear drv s, ?_,
    loop_cycle_flag drv s hflag, ?_, ?_⟩
  · refine ⟨readCallsIssued drv s, readCallsIssued_no_clear drv s, ?_⟩
    rw [loop_triggered drv s hflag, loopClear_callFlags, loopUntilClear_callFlags,
      loopUntilClear_flag, loopReport_callFlags, hflag]
  · rw [loop_triggered drv s hflag, loopClear_trace]
    rfl
  · intro hc
    rw [loopUntilClear_apds] at hc
    rw [cycle_error_count drv s hflag, hc]
    rfl
  · intro hc
    rw [loopUntilClear_apds] at hc
    rw [cycle_error_count drv s hflag, hc]
    rfl

/-- Witness for C2 on `clearFailure`, where the clear call fails. -/
theorem loop_clears_interrupt_once_witness :
    clearFailure.isr_flag = 1 ∧
    (scripted.clearAmbientLightInt (loopUntilClear scripted clearFailure).apds).1 = false ∧
    ((newEvents clearFailure (loop scripted clearFailure)).count
      (Event.driver DriverCall.clearAmbientLightInt) = 1 ∧
    (∃ reads : List DriverCall, DriverCall.clearAmbientLightInt ∉ reads ∧
      (loop scripted clearFailure).callFlags =
        clearFailure.callFlags ++ reads.map (fun c => (c, (1 : Int))) ++
          [(DriverCall.clearAmbientLightInt, (0 : Int))]) ∧
    loop scripted clearFailure = loopClear scripted (loopUntilClear scripted clearFailure) ∧
    (loopUntilClear scripted clearFailure).isr_flag = 0 ∧
    (newEvents clearFailure (loopUntilClear scripted clearFailure)).count
      (Event.driver DriverCall.clearAmbientLightInt) = 0 ∧
    (loop scripted clearFailure).trace = (loopUntilClear scripted clearFailure).trace ++
      Event.driver DriverCall.clearAmbientLightInt ::
        (if (scripted.clearAmbientLightInt
            (loopUntilClear scripted clearFailure).apds).1 = true
         then [] else [Event.cout "Error clearing interrupt", Event.endl]) ∧
    (loop scripted clearFailure).isr_flag = 0 ∧
    ((scripted.clearAmbientLightInt (loopUntilClear scripted clearFailure).apds).1 = false →
      (newEvents clearFailure (loop scripted clearFailure)).count
        (Event.cout "Error clearing interrupt") = 1) ∧
    ((scripted.clearAmbientLightInt (loopUntilClear scripted clearFailure).apds).1 = true →
      (newEvents clearFailure (loop scripted clearFailure)).count
        (Event.cout "Error clearing interrupt") = 0)) :=
  ⟨by decide, by decide, loop_clears_interrupt_once scripted clearFailure (by decide)⟩

/-- C3: from any state, `k ≥ 1` invocations of `interruptRoutine` followed by `m ≥ 1`
iterations of `loop()` leave the program where one invocation followed by one iteration
leaves it.  In total the iterations write one report or read-error line, pulse the LED
once (one `digitalWrite(LED_PIN, HIGH)`, one `delay(500)`, one
`digitalWrite(LED_PIN, LOW)`) and call `clearAmbientLightInt` once, all of it in the
first iteration; every later iteration leaves the state unchanged, so it makes no
call, writes nothing and does not touch the LED. -/
theorem coalesced_interrupts_one_cycle (drv : SparkFun_APDS9960 D) (s : State D)
    (k m : Nat) (hk : 1 ≤ k) (hm : 1 ≤ m) :
    (loop drv)^[m] (interruptRoutine^[k] s) = loop drv (interruptRoutine s) ∧
    newEvents s ((loop drv)^[m] (interruptRoutine^[k] s)) =
      newEvents (interruptRoutine^[k] s) (loop drv (interruptRoutine^[k] s)) ∧
    (newEvents s ((loop drv)^[m] (interruptRoutine^[k] s))).count
        (Event.cout "Error reading light values") +
      (newEvents s ((loop drv)^[m] (interruptRoutine^[k] s))).count
        (Event.cout "Interrupt! Ambient: ") = 1 ∧
    (newEvents s ((loop drv)^[m] (interruptRoutine^[k] s))).count
      (Event.platform (PlatformCall.digitalWrite LED_PIN Level.HIGH)) = 1 ∧
    (newEvents s ((loop drv)^[m] (interruptRoutine^[k] s))).count
      (Event.platform (PlatformCall.delay 500)) = 1 ∧
    (newEvents s ((loop drv)^[m] (interruptRoutine^[k] s))).count
      (Event.platform (PlatformCall.digitalWrite LED_PIN Level.LOW)) = 1 ∧
    (newEvents s ((loop drv)^[m] (interruptRoutine^[k] s))).count
      (Event.driver DriverCall.clearAmbientLightInt) = 1 ∧
    (∀ j : Nat, 1 ≤ j →
      loop drv ((loop drv)^[j] (interruptRoutine^[k] s)) =
        (loop drv)^[j] (interruptRoutine^[k] s) ∧
      newEvents ((loop drv)^[j] (interruptRoutine^[k] s))
        (loop drv ((loop drv)^[j] (interruptRoutine^[k] s))) = []) := by
  have hk1 : interruptRoutine^[k] s = interruptRoutine s := iterate_interruptRoutine s k hk
  have hf : (interruptRoutine s).isr_flag = 1 := rfl
  have hm1 : (loop drv)^[m] (interruptRoutine s) = loop drv (interruptRoutine s) :=
    iterate_loop drv _ m hm hf
  have hnew : newEvents s (loop drv (interruptRoutine s)) =
      newEvents (interruptRoutine s) (loop drv (interruptRoutine s)) := rfl
  have hc := cycle_counts drv (interruptRoutine s) hf
  rw [hk1, hm1, hnew]
  refine ⟨rfl, rfl, hc.2.2.2.2, hc.2.1, hc.2.2.1, hc.2.2.2.1, hc.1, ?_⟩
  intro j hj
  have hidle : loop drv ((loop drv)^[j] (interruptRoutine s)) =
      (loop drv)^[j] (interruptRoutine s) := by
    rw [iterate_loop drv _ j hj hf]
    apply loop_idle
    rw [loop_cycle_flag drv _ hf]
    decide
  rw [hidle]
  exact ⟨rfl, newEvents_self _⟩


/-- Witness for C3: the handler fires twice on a fresh program, then `loop()` runs three
times. -/
theorem coalesced_interrupts_one_cycle_witness :
    1 ≤ 2 ∧ 1 ≤ 3 ∧
    ((loop scripted)^[3] (interruptRoutine^[2] (State.start [(true, 7)])) =
      loop scripted (interruptRoutine (State.start [(true, 7)])) ∧
    newEvents (State.start [(true, 7)])
        ((loop scripted)^[3] (interruptRoutine^[2] (State.start [(true, 7)]))) =
      newEvents (interruptRoutine^[2] (State.start [(true, 7)]))
        (loop scripted (interruptRoutine^[2] (State.start [(true, 7)]))) ∧
    (newEvents (State.start [(true, 7)])
        ((loop scripted)^[3] (interruptRoutine^[2] (State.start [(true, 7)])))).count
        (Event.cout "Error reading light values") +
      (newEvents (State.start [(true, 7)])
        ((loop scripted)^[3] (interruptRoutine^[2] (State.start [(true, 7)])))).count
        (Event.cout "Interrupt! Ambient: ") = 1 ∧
    (newEvents (State.start [(true, 7)])
        ((loop scripted)^[3] (interruptRoutine^[2] (State.start [(true, 7)])))).count
      (Event.platform (PlatformCall.digitalWrite LED_PIN Level.HIGH)) = 1 ∧
    (newEvents (State.start [(true, 7)])
        ((loop scripted)^[3] (interruptRoutine^[2] (State.start [(true, 7)])))).count
      (Event.platform (PlatformCall.delay 500)) = 1 ∧
    (newEvents (State.start [(true, 7)])
        ((loop scripted)^[3] (interruptRoutine^[2] (State.start [(true, 7)])))).count
      (Event.platform (PlatformCall.digitalWrite LED_PIN Level.LOW)) = 1 ∧
    (newEvents (State.start [(true, 7)])
        ((loop scripted)^[3] (interruptRoutine^[2] (State.start [(true, 7)])))).count
      (Event.driver DriverCall.clearAmbientLightInt) = 1 ∧
    (∀ j : Nat, 1 ≤ j →
      loop scripted ((loop scripted)^[j] (interruptRoutine^[2] (State.start [(true, 7)]))) =
        (loop scripted)^[j] (interruptRoutine^[2] (State.start [(true, 7)])) ∧
      newEvents ((loop scripted)^[j] (interruptRoutine^[2] (State.start [(true, 7)])))
        (loop scripted
          ((loop scripted)^[j] (interruptRoutine^[2] (State.start [(true, 7)])))) = [])) :=
  ⟨by decide, by decide,
    coalesced_interrupts_one_cycle scripted (State.start [(true, 7)]) 2 3
      (by decide) (by decide)⟩

/-- C4: `interruptRoutine` returns the state it is given with `isr_flag` set to 1 and
every other global (the four light readings, `threshold`, the driver object) unchanged;
it adds nothing to the trace, so it makes no driver or platform call, does not touch
the LED and writes nothing.  It is idempotent: `n ≥ 1` invocations give the state one
invocation gives, and on a state whose `isr_flag` is already 1 it changes nothing. -/
theorem interruptRoutine_sets_flag_only (s : State D) (n : Nat) (hn : 1 ≤ n) :
    interruptRoutine s = { s with isr_flag := 1 } ∧
    (interruptRoutine s).isr_flag = 1 ∧
    (interruptRoutine s).ambient_light = s.ambient_light ∧
    (interruptRoutine s).red_light = s.red_light ∧
    (interruptRoutine s).green_light = s.green_light ∧
    (interruptRoutine s).blue_light = s.blue_light ∧
    (interruptRoutine s).threshold = s.threshold ∧
    (interruptRoutine s).apds = s.apds ∧
    (interruptRoutine s).trace = s.trace ∧
    newEvents s (interruptRoutine s) = [] ∧
    console (interruptRoutine s).trace = console s.trace ∧
    interruptRoutine^[n] s = interruptRoutine s ∧
    interruptRoutine (interruptRoutine s) = interruptRoutine s ∧
    (s.isr_flag = 1 → interruptRoutine s = s) :=
  ⟨rfl, rfl, rfl, rfl, rfl, rfl, rfl, rfl, rfl, newEvents_self s, rfl,
    iterate_interruptRoutine s n hn, rfl, interruptRoutine_of_flag s⟩

/-- Witness for C4 on `brightRoom`, a state whose flag is already set, with `n = 3`. -/
theorem interruptRoutine_sets_flag_only_witness :
    1 ≤ 3 ∧
    (interruptRoutine brightRoom = { brightRoom with isr_flag := 1 } ∧
    (interruptRoutine brightRoom).isr_flag = 1 ∧
    (interruptRoutine brightRoom).ambient_light = brightRoom.ambient_light ∧
    (interruptRoutine brightRoom).red_light = brightRoom.red_light ∧
    (interruptRoutine brightRoom).green_light = brightRoom.green_light ∧
    (interruptRoutine brightRoom).blue_light = brightRoom.blue_light ∧
    (interruptRoutine brightRoom).threshold = brightRoom.threshold ∧
    (interruptRoutine brightRoom).apds = brightRoom.apds ∧
    (interruptRoutine brightRoom).trace = brightRoom.trace ∧
    newEvents brightRoom (interruptRoutine brightRoom) = [] ∧
    console (interruptRoutine brightRoom).trace = console brightRoom.trace ∧
    interruptRoutine^[3] brightRoom = interruptRoutine brightRoom ∧
    interruptRoutine (interruptRoutine brightRoom) = interruptRoutine brightRoom ∧
    (brightRoom.isr_flag = 1 → interruptRoutine brightRoom = brightRoom)) :=
  ⟨by decide, interruptRoutine_sets_flag_only brightRoom 3 (by decide)⟩

/-- C5, as stated, fails: when the ambient read fails, the iteration issues the ambient
read only; `readRedLight`, `readGreenLight` and `readBlueLight` are not called. -/
theorem loop_skips_reads_after_failure :
    ambientFailure.isr_flag = 1 ∧
    (newEvents ambientFailure (loop scripted ambientFailure)).filter Event.isRead =
      [Event.driver DriverCall.readAmbientLight] ∧
    (newEvents ambientFailure (loop scripted ambientFailure)).count
      (Event.driver DriverCall.readRedLight) = 0 ∧
    (newEvents ambientFailure (loop scripted ambientFailure)).count
      (Event.driver DriverCall.readGreenLight) = 0 ∧
    (newEvents ambientFailure (loop scripted ambientFailure)).count
      (Event.driver DriverCall.readBlueLight) = 0 := by
  decide

/-- C5, amended: in an iteration of `loop()` that finds `isr_flag == 1`, the channel
reads are issued in the order ambient, red, green, blue, each at most once, up to and
including the first one that fails; all four are issued, each exactly once and in that
order, when the first three succeed. -/
theorem loop_reads_until_first_failure (drv : SparkFun_APDS9960 D) (s : State D)
    (hflag : s.isr_flag = 1) :
    ((ambientResult drv s).1 = false →
      (newEvents s (loop drv s)).filter Event.isRead =
        [Event.driver DriverCall.readAmbientLight]) ∧
    ((ambientResult drv s).1 = true → (redResult drv s).1 = false →
      (newEvents s (loop drv s)).filter Event.isRead =
        [Event.driver DriverCall.readAmbientLight, Event.driver DriverCall.readRedLight]) ∧
    ((ambientResult drv s).1 = true → (redResult drv s).1 = true →
      (greenResult drv s).1 = false →
      (newEvents s (loop drv s)).filter Event.isRead =
        [Event.driver DriverCall.readAmbientLight, Event.driver DriverCall.readRedLight,
         Event.driver DriverCall.readGreenLight]) ∧
    ((ambientResult drv s).1 = true → (redResult drv s).1 = true →
      (greenResult drv s).1 = true →
      (newEvents s (loop drv s)).filter Event.isRead =
        [Event.driver DriverCall.readAmbientLight, Event.driver DriverCall.readRedLight,
         Event.driver DriverCall.readGreenLight, Event.driver DriverCall.readBlueLight]) := by
  have hfilter : (newEvents s (loop drv s)).filter Event.isRead = readsIssued drv s := by
    rw [newEvents_of_trace (loop_cycle_trace drv s hflag)]
    simp only [readsIssued, reportEvents, pulseEvents, clearReport]
    split_ifs <;> simp [Event.isRead]
  rw [hfilter]
  refine ⟨?_, ?_, ?_, ?_⟩
  · intro h1; simp [readsIssued, h1]
  · intro h1 h2; simp [readsIssued, h1, h2]
  · intro h1 h2 h3; simp [readsIssued, h1, h2, h3]
  · intro h1 h2 h3; simp [readsIssued, h1, h2, h3]

/-- Witness for C5 amended on `redFailure`: the ambient and red reads are issued, the
green and blue reads are not. -/
theorem loop_reads_until_first_failure_witness :
    redFailure.isr_flag = 1 ∧
    (((ambientResult scripted redFailure).1 = false →
      (newEvents redFailure (loop scripted redFailure)).filter Event.isRead =
        [Event.driver DriverCall.readAmbientLight]) ∧
    ((ambientResult scripted redFailure).1 = true → (redResult scripted redFailure).1 = false →
      (newEvents redFailure (loop scripted redFailure)).filter Event.isRead =
        [Event.driver DriverCall.readAmbientLight, Event.driver DriverCall.readRedLight]) ∧
    ((ambientResult scripted redFailure).1 = true → (redResult scripted redFailure).1 = true →
      (greenResult scripted redFailure).1 = false →
      (newEvents redFailure (loop scripted redFailure)).filter Event.isRead =
        [Event.driver DriverCall.readAmbientLight, Event.driver DriverCall.readRedLight,
         Event.driver DriverCall.readGreenLight]) ∧
    ((ambientResult scripted redFailure).1 = true → (redResult scripted redFailure).1 = true →
      (greenResult scripted redFailure).1 = true →
      (newEvents redFailure (loop scripted redFailure)).filter Event.isRead =
        [Event.driver DriverCall.readAmbientLight, Event.driver DriverCall.readRedLight,
         Event.driver DriverCall.readGreenLight, Event.driver DriverCall.readBlueLight])) :=
  ⟨by decide, loop_reads_until_first_failure scripted redFailure (by decide)⟩


/-- C6: when `loop()` runs with `isr_flag == 1` and the four reads succeed with the
16-bit values `a`, `r`, `g`, `b`, the read/report step writes exactly
"Interrupt! Ambient: a R: r G: g B: b" and a line end, the values in decimal and in the
order ambient, red, green, blue; the iteration then sets LED_PIN HIGH, delays 500 ms,
sets LED_PIN LOW, resets `isr_flag` and calls `clearAmbientLightInt`.  For
(100, 40, 35, 25) the line is "Interrupt! Ambient: 100 R: 40 G: 35 B: 25". -/
theorem loop_reports_light_values (drv : SparkFun_APDS9960 D) (s : State D)
    (a r g b : Nat) (dA dR dG dB : D) (hflag : s.isr_flag = 1)
    (ha : a < 65536) (hr : r < 65536) (hg : g < 65536) (hb : b < 65536)
    (hA : drv.readAmbientLight s.ambient_light s.apds = (true, a, dA))
    (hR : drv.readRedLight s.red_light dA = (true, r, dR))
    (hG : drv.readGreenLight s.green_light dR = (true, g, dG))
    (hB : drv.readBlueLight s.blue_light dG = (true, b, dB)) :
    console (newEvents s (loopReport drv s)) =
      "Interrupt! Ambient: " ++ Nat.repr a ++ " R: " ++ Nat.repr r ++ " G: " ++ Nat.repr g ++
        " B: " ++ Nat.repr b ++ "\n" ∧
    (a = 100 → r = 40 → g = 35 → b = 25 →
      console (newEvents s (loopReport drv s)) =
        "Interrupt! Ambient: 100 R: 40 G: 35 B: 25\n") ∧
    (loop drv s).trace = s.trace ++
      [Event.driver DriverCall.readAmbientLight, Event.driver DriverCall.readRedLight,
       Event.driver DriverCall.readGreenLight, Event.driver DriverCall.readBlueLight,
       Event.cout "Interrupt! Ambient: ", Event.coutInt (Int.ofNat a),
       Event.cout " R: ", Event.coutInt (Int.ofNat r),
       Event.cout " G: ", Event.coutInt (Int.ofNat g),
       Event.cout " B: ", Event.coutInt (Int.ofNat b), Event.endl,
       Event.platform (PlatformCall.digitalWrite LED_PIN Level.HIGH),
       Event.platform (PlatformCall.delay 500),
       Event.platform (PlatformCall.digitalWrite LED_PIN Level.LOW),
       Event.driver DriverCall.clearAmbientLightInt] ++
      (if (drv.clearAmbientLightInt dB).1 = true then []
       else [Event.cout "Error clearing interrupt", Event.endl]) ∧
    (loopUntilClear drv s).isr_flag = 0 ∧
    (loop drv s).isr_flag = 0 ∧
    (loop drv s).ambient_light = a ∧ (loop drv s).red_light = r ∧
    (loop drv s).green_light = g ∧ (loop drv s).blue_light = b := by
  have ua : u16 a = a := Nat.mod_eq_of_lt ha
  have ur : u16 r = r := Nat.mod_eq_of_lt hr
  have ug : u16 g = g := Nat.mod_eq_of_lt hg
  have ub : u16 b = b := Nat.mod_eq_of_lt hb
  have hrep : loopReport drv s =
      { s with
        apds := dB, ambient_light := a, red_light := r, green_light := g, blue_light := b,
        trace := s.trace ++
          [Event.driver DriverCall.readAmbientLight, Event.driver DriverCall.readRedLight,
           Event.driver DriverCall.readGreenLight, Event.driver DriverCall.readBlueLight,
           Event.cout "Interrupt! Ambient: ", Event.coutInt (Int.ofNat a),
           Event.cout " R: ", Event.coutInt (Int.ofNat r),
           Event.cout " G: ", Event.coutInt (Int.ofNat g),
           Event.cout " B: ", Event.coutInt (Int.ofNat b), Event.endl],
        callFlags := s.callFlags ++
          [(DriverCall.readAmbientLight, s.isr_flag), (DriverCall.readRedLight, s.isr_flag),
           (DriverCall.readGreenLight, s.isr_flag), (DriverCall.readBlueLight, s.isr_flag)] } := by
    simp [loopReport, readLightLevels, apds_readAmbientLight, apds_readRedLight,
      apds_readGreenLight, apds_readBlueLight, emit, issue, cout, coutInt, endl,
      hA, hR, hG, hB,
      ua, ur, ug, ub]
  have hcon : console (newEvents s (loopReport drv s)) =
      "Interrupt! Ambient: " ++ Nat.repr a ++ " R: " ++ Nat.repr r ++ " G: " ++ Nat.repr g ++
        " B: " ++ Nat.repr b ++ "\n" := by
    rw [hrep]
    simp only [newEvents, List.drop_left, console, Event.text, String.append_assoc]
    rfl
  refine ⟨hcon, ?_, ?_, loopUntilClear_flag drv s, loop_cycle_flag drv s hflag, ?_⟩
  · intro h1 h2 h3 h4
    rw [hcon, h1, h2, h3, h4]
    decide
  · rw [loop_triggered drv s hflag, loopClear_trace]
    simp [loopUntilClear, loopReset, digitalWrite, delay, emit, hrep, clearReport]
  · rw [loop_triggered drv s hflag]
    simp only [loopClear, apds_clearAmbientLightInt, loopUntilClear, loopReset, digitalWrite,
      delay, emit, issue, cout, endl, hrep]
    split_ifs <;> simp

/-- Witness for C6 on `brightRoom`: the reads return 100, 40, 35 and 25. -/
theorem loop_reports_light_values_witness :
    brightRoom.isr_flag = 1 ∧
    scripted.readAmbientLight brightRoom.ambient_light brightRoom.apds =
      (true, 100, [(true, 40), (true, 35), (true, 25), (true, 0)]) ∧
    scripted.readRedLight brightRoom.red_light [(true, 40), (true, 35), (true, 25), (true, 0)] =
      (true, 40, [(true, 35), (true, 25), (true, 0)]) ∧
    scripted.readGreenLight brightRoom.green_light [(true, 35), (true, 25), (true, 0)] =
      (true, 35, [(true, 25), (true, 0)]) ∧
    scripted.readBlueLight brightRoom.blue_light [(true, 25), (true, 0)] =
      (true, 25, [(true, 0)]) ∧
    (console (newEvents brightRoom (loopReport scripted brightRoom)) =
      "Interrupt! Ambient: " ++ Nat.repr 100 ++ " R: " ++ Nat.repr 40 ++ " G: " ++
        Nat.repr 35 ++ " B: " ++ Nat.repr 25 ++ "\n" ∧
    ((100 : Nat) = 100 → (40 : Nat) = 40 → (35 : Nat) = 35 → (25 : Nat) = 25 →
      console (newEvents brightRoom (loopReport scripted brightRoom)) =
        "Interrupt! Ambient: 100 R: 40 G: 35 B: 25\n") ∧
    (loop scripted brightRoom).trace = brightRoom.trace ++
      [Event.driver DriverCall.readAmbientLight, Event.driver DriverCall.readRedLight,
       Event.driver DriverCall.readGreenLight, Event.driver DriverCall.readBlueLight,
       Event.cout "Interrupt! Ambient: ", Event.coutInt (Int.ofNat 100),
       Event.cout " R: ", Event.coutInt (Int.ofNat 40),
       Event.cout " G: ", Event.coutInt (Int.ofNat 35),
       Event.cout " B: ", Event.coutInt (Int.ofNat 25), Event.endl,
       Event.platform (PlatformCall.digitalWrite LED_PIN Level.HIGH),
       Event.platform (PlatformCall.delay 500),
       Event.platform (PlatformCall.digitalWrite LED_PIN Level.LOW),
       Event.driver DriverCall.clearAmbientLightInt] ++
      (if (scripted.clearAmbientLightInt [(true, 0)]).1 = true then []
       else [Event.cout "Error clearing interrupt", Event.endl]) ∧
    (loopUntilClear scripted brightRoom).isr_flag = 0 ∧
    (loop scripted brightRoom).isr_flag = 0 ∧
    (loop scripted brightRoom).ambient_light = 100 ∧
    (loop scripted brightRoom).red_light = 40 ∧
    (loop scripted brightRoom).green_light = 35 ∧
    (loop scripted brightRoom).blue_light = 25) :=
  ⟨by decide, by decide, by decide, by decide, by decide,
    loop_reports_light_values scripted brightRoom 100 40 35 25
      [(true, 40), (true, 35), (true, 25), (true, 0)] [(true, 35), (true, 25), (true, 0)]
      [(true, 25), (true, 0)] [(true, 0)]
      (by decide) (by decide) (by decide) (by decide) (by decide)
      (by decide) (by decide) (by decide) (by decide)⟩

/-! ## Preemption -/

theorem iterate_interruptRoutine_trace (s : State D) (n : Nat) :
    (interruptRoutine^[n] s).trace = s.trace := by
  rcases Nat.eq_zero_or_pos n with hn | hn
  · subst hn; rfl
  · rw [iterate_interruptRoutine s n hn]; rfl

theorem iterate_interruptRoutine_apds (s : State D) (n : Nat) :
    (interruptRoutine^[n] s).apds = s.apds := by
  rcases Nat.eq_zero_or_pos n with hn | hn
  · subst hn; rfl
  · rw [iterate_interruptRoutine s n hn]; rfl

theorem runPreempted_loopBody (drv : SparkFun_APDS9960 D) (s : State D)
    (n0 n1 n2 n3 n4 n5 n6 : Nat) :
    runPreempted (loopBody drv) [n0, n1, n2, n3, n4, n5, n6] s =
      interruptRoutine^[n6] (loopClear drv (interruptRoutine^[n5] (loopReset
        (interruptRoutine^[n4] (digitalWrite LED_PIN Level.LOW (interruptRoutine^[n3]
          (delay 500 (interruptRoutine^[n2] (digitalWrite LED_PIN Level.HIGH
            (interruptRoutine^[n1] (loopReport drv (interruptRoutine^[n0] s)))))))))))) := by
  simp [runPreempted, loopBody]

/-- C10: take an iteration of `loop()` that finds `isr_flag == 1`, with `interruptRoutine`
running `n0` times after the test, `n1` times after the read/report step, `n2`, `n3`
and `n4` times around the LED writes and the dwell, `n5` times between the reset and
the clear call, and `n6` times after the clear call.  When the handler runs only
before the reset (`n5 = n6 = 0`), the iteration ends exactly as the undisturbed one,
with `isr_flag` 0, and the next iteration is idle.  When it runs after the reset
(`n5 + n6 ≥ 1`), the iteration ends with `isr_flag` 1 and the next iteration performs
a cycle: one pulse and one clear call. -/
theorem lost_event_window (drv : SparkFun_APDS9960 D) (s : State D)
    (n0 n1 n2 n3 n4 n5 n6 : Nat) (hflag : s.isr_flag = 1) :
    loopPreempted drv [n0, n1, n2, n3, n4, 0, 0] s = loop drv s ∧
    (loopPreempted drv [n0, n1, n2, n3, n4, 0, 0] s).isr_flag = 0 ∧
    loop drv (loopPreempted drv [n0, n1, n2, n3, n4, 0, 0] s) =
      loopPreempted drv [n0, n1, n2, n3, n4, 0, 0] s ∧
    newEvents (loopPreempted drv [n0, n1, n2, n3, n4, 0, 0] s)
      (loop drv (loopPreempted drv [n0, n1, n2, n3, n4, 0, 0] s)) = [] ∧
    (1 ≤ n5 + n6 →
      (loopPreempted drv [n0, n1, n2, n3, n4, n5, n6] s).isr_flag = 1 ∧
      (loopPreempted drv [n0, n1, n2, n3, n4, n5, n6] s).trace = (loop drv s).trace ∧
      (newEvents (loopPreempted drv [n0, n1, n2, n3, n4, n5, n6] s)
        (loop drv (loopPreempted drv [n0, n1, n2, n3, n4, n5, n6] s))).count
          (Event.platform (PlatformCall.digitalWrite LED_PIN Level.HIGH)) = 1 ∧
      (newEvents (loopPreempted drv [n0, n1, n2, n3, n4, n5, n6] s)
        (loop drv (loopPreempted drv [n0, n1, n2, n3, n4, n5, n6] s))).count
          (Event.platform (PlatformCall.delay 500)) = 1 ∧
      (newEvents (loopPreempted drv [n0, n1, n2, n3, n4, n5, n6] s)
        (loop drv (loopPreempted drv [n0, n1, n2, n3, n4, n5, n6] s))).count
          (Event.platform (PlatformCall.digitalWrite LED_PIN Level.LOW)) = 1 ∧
      (newEvents (loopPreempted drv [n0, n1, n2, n3, n4, n5, n6] s)
        (loop drv (loopPreempted drv [n0, n1, n2, n3, n4, n5, n6] s))).count
          (Event.driver DriverCall.clearAmbientLightInt) = 1 ∧
      (loop drv (loopPreempted drv [n0, n1, n2, n3, n4, n5, n6] s)).isr_flag = 0) := by
  have hpre : ∀ a b : Nat, loopPreempted drv [n0, n1, n2, n3, n4, a, b] s =
      interruptRoutine^[b] (loopClear drv (interruptRoutine^[a] (loopUntilClear drv s))) := by
    intro a b
    have e1 : (loopReport drv s).isr_flag = 1 := by rw [loopReport_flag, hflag]
    have e2 : (digitalWrite LED_PIN Level.HIGH (loopReport drv s)).isr_flag = 1 := e1
    have e3 : (delay 500 (digitalWrite LED_PIN Level.HIGH (loopReport drv s))).isr_flag = 1 :=
      e1
    have e4 : (digitalWrite LED_PIN Level.LOW
        (delay 500 (digitalWrite LED_PIN Level.HIGH (loopReport drv s)))).isr_flag = 1 := e1
    simp only [loopPreempted, hflag, if_true, runPreempted_loopBody]
    rw [iterate_interruptRoutine_of_flag s n0 hflag,
      iterate_interruptRoutine_of_flag _ n1 e1, iterate_interruptRoutine_of_flag _ n2 e2,
      iterate_interruptRoutine_of_flag _ n3 e3, iterate_interruptRoutine_of_flag _ n4 e4]
    rfl
  have h00 : loopPreempted drv [n0, n1, n2, n3, n4, 0, 0] s = loop drv s := by
    rw [hpre 0 0, loop_triggered drv s hflag]
    rfl
  have hz : (loop drv s).isr_flag ≠ 1 := by
    rw [loop_cycle_flag drv s hflag]
    decide
  refine ⟨h00, ?_, ?_, ?_, ?_⟩
  · rw [h00]
    exact loop_cycle_flag drv s hflag
  · rw [h00]
    exact loop_idle drv _ hz
  · rw [h00, loop_idle drv _ hz]
    exact newEvents_self _
  · intro hn
    have hf : (loopPreempted drv [n0, n1, n2, n3, n4, n5, n6] s).isr_flag = 1 := by
      rw [hpre n5 n6]
      rcases Nat.eq_zero_or_pos n6 with h6 | h6
      · subst h6
        have h5 : 1 ≤ n5 := by omega
        rw [iterate_interruptRoutine _ n5 h5]
        simp only [Function.iterate_zero, id_eq]
        rw [loopClear_flag]
        rfl
      · rw [iterate_interruptRoutine _ n6 h6]
        rfl
    have ht : (loopPreempted drv [n0, n1, n2, n3, n4, n5, n6] s).trace =
        (loop drv s).trace := by
      rw [hpre n5 n6, loop_triggered drv s hflag, iterate_interruptRoutine_trace,
        loopClear_trace, loopClear_trace, iterate_interruptRoutine_trace,
        iterate_interruptRoutine_apds]
    have hc := cycle_counts drv _ hf
    exact ⟨hf, ht, hc.2.1, hc.2.2.1, hc.2.2.2.1, hc.1, loop_cycle_flag drv _ hf⟩

/-- Witness for C10 on `brightRoom`: the handler runs once before the reads and twice
before the dwell; in the second half of the statement it also runs once between the
reset and the clear call. -/
theorem lost_event_window_witness :
    brightRoom.isr_flag = 1 ∧
    (loopPreempted scripted [1, 0, 2, 0, 0, 0, 0] brightRoom = loop scripted brightRoom ∧
    (loopPreempted scripted [1, 0, 2, 0, 0, 0, 0] brightRoom).isr_flag = 0 ∧
    loop scripted (loopPreempted scripted [1, 0, 2, 0, 0, 0, 0] brightRoom) =
      loopPreempted scripted [1, 0, 2, 0, 0, 0, 0] brightRoom ∧
    newEvents (loopPreempted scripted [1, 0, 2, 0, 0, 0, 0] brightRoom)
      (loop scripted (loopPreempted scripted [1, 0, 2, 0, 0, 0, 0] brightRoom)) = [] ∧
    (1 ≤ 1 + 0 →
      (loopPreempted scripted [1, 0, 2, 0, 0, 1, 0] brightRoom).isr_flag = 1 ∧
      (loopPreempted scripted [1, 0, 2, 0, 0, 1, 0] brightRoom).trace =
        (loop scripted brightRoom).trace ∧
      (newEvents (loopPreempted scripted [1, 0, 2, 0, 0, 1, 0] brightRoom)
        (loop scripted (loopPreempted scripted [1, 0, 2, 0, 0, 1, 0] brightRoom))).count
          (Event.platform (PlatformCall.digitalWrite LED_PIN Level.HIGH)) = 1 ∧
      (newEvents (loopPreempted scripted [1, 0, 2, 0, 0, 1, 0] brightRoom)
        (loop scripted (loopPreempted scripted [1, 0, 2, 0, 0, 1, 0] brightRoom))).count
          (Event.platform (PlatformCall.delay 500)) = 1 ∧
      (newEvents (loopPreempted scripted [1, 0, 2, 0, 0, 1, 0] brightRoom)
        (loop scripted (loopPreempted scripted [1, 0, 2, 0, 0, 1, 0] brightRoom))).count
          (Event.platform (PlatformCall.digitalWrite LED_PIN Level.LOW)) = 1 ∧
      (newEvents (loopPreempted scripted [1, 0, 2, 0, 0, 1, 0] brightRoom)
        (loop scripted (loopPreempted scripted [1, 0, 2, 0, 0, 1, 0] brightRoom))).count
          (Event.driver DriverCall.clearAmbientLightInt) = 1 ∧
      (loop scripted (loopPreempted scripted [1, 0, 2, 0, 0, 1, 0] brightRoom)).isr_flag =
        0)) :=
  ⟨by decide, lost_event_window scripted brightRoom 1 0 2 0 0 1 0 (by decide)⟩


/-! ## Lemmas on `setup` -/

theorem setup_eq_steps (drv : SparkFun_APDS9960 D) (s : State D) :
    setup drv s = delay 500 (setupIntEnable drv (setupReadHigh drv (setupReadLow drv
      (setupEnable drv (setupWriteHigh drv (setupWriteLow drv (setupInit drv
        (setupRegister (setupBanner (setupPins s)))))))))) := rfl

theorem setupInit_spec (drv : SparkFun_APDS9960 D) (x : State D) :
    (setupInit drv x).trace =
      x.trace ++ (Event.driver DriverCall.init :: initReport (drv.init x.apds).1) ∧
    (setupInit drv x).apds = (drv.init x.apds).2 ∧
    (setupInit drv x).threshold = x.threshold := by
  simp only [setupInit, apds_init, emit, issue, cout, endl]
  cases (drv.init x.apds).1 <;> simp [initReport]

theorem setupWriteLow_spec (drv : SparkFun_APDS9960 D) (x : State D) :
    (setupWriteLow drv x).trace =
      x.trace ++ (Event.driver (DriverCall.setLightIntLowThreshold LIGHT_INT_LOW) ::
        writeLowReport (drv.setLightIntLowThreshold LIGHT_INT_LOW x.apds).1) ∧
    (setupWriteLow drv x).apds = (drv.setLightIntLowThreshold LIGHT_INT_LOW x.apds).2 ∧
    (setupWriteLow drv x).threshold = x.threshold := by
  simp only [setupWriteLow, apds_setLightIntLowThreshold, emit, issue, cout, endl]
  cases (drv.setLightIntLowThreshold LIGHT_INT_LOW x.apds).1 <;> simp [writeLowReport]

theorem setupWriteHigh_spec (drv : SparkFun_APDS9960 D) (x : State D) :
    (setupWriteHigh drv x).trace =
      x.trace ++ (Event.driver (DriverCall.setLightIntHighThreshold LIGHT_INT_HIGH) ::
        writeHighReport (drv.setLightIntHighThreshold LIGHT_INT_HIGH x.apds).1) ∧
    (setupWriteHigh drv x).apds = (drv.setLightIntHighThreshold LIGHT_INT_HIGH x.apds).2 ∧
    (setupWriteHigh drv x).threshold = x.threshold := by
  simp only [setupWriteHigh, apds_setLightIntHighThreshold, emit, issue, cout, endl]
  cases (drv.setLightIntHighThreshold LIGHT_INT_HIGH x.apds).1 <;> simp [writeHighReport]

theorem setupEnable_spec (drv : SparkFun_APDS9960 D) (x : State D) :
    (setupEnable drv x).trace =
      x.trace ++ (Event.driver (DriverCall.enableLightSensor false) ::
        enableReport (drv.enableLightSensor false x.apds).1) ∧
    (setupEnable drv x).apds = (drv.enableLightSensor false x.apds).2 ∧
    (setupEnable drv x).threshold = x.threshold := by
  simp only [setupEnable, apds_enableLightSensor, emit, issue, cout, endl]
  cases (drv.enableLightSensor false x.apds).1 <;> simp [enableReport]

theorem setupReadLow_spec (drv : SparkFun_APDS9960 D) (x : State D) :
    (setupReadLow drv x).trace =
      x.trace ++ (Event.driver DriverCall.getLightIntLowThreshold ::
        readLowReport (drv.getLightIntLowThreshold x.threshold x.apds).1
          (drv.getLightIntLowThreshold x.threshold x.apds).2.1) ∧
    (setupReadLow drv x).apds = (drv.getLightIntLowThreshold x.threshold x.apds).2.2 ∧
    (setupReadLow drv x).threshold =
      u16 (drv.getLightIntLowThreshold x.threshold x.apds).2.1 := by
  simp only [setupReadLow, apds_getLightIntLowThreshold, emit, issue, cout, coutU16, endl]
  cases (drv.getLightIntLowThreshold x.threshold x.apds).1 <;> simp [readLowReport]

theorem setupReadHigh_spec (drv : SparkFun_APDS9960 D) (x : State D) :
    (setupReadHigh drv x).trace =
      x.trace ++ (Event.driver DriverCall.getLightIntHighThreshold ::
        readHighReport (drv.getLightIntHighThreshold x.threshold x.apds).1
          (drv.getLightIntHighThreshold x.threshold x.apds).2.1) ∧
    (setupReadHigh drv x).apds = (drv.getLightIntHighThreshold x.threshold x.apds).2.2 ∧
    (setupReadHigh drv x).threshold =
      u16 (drv.getLightIntHighThreshold x.threshold x.apds).2.1 := by
  simp only [setupReadHigh, apds_getLightIntHighThreshold, emit, issue, cout, coutU16, endl]
  cases (drv.getLightIntHighThreshold x.threshold x.apds).1 <;> simp [readHighReport]

theorem setupIntEnable_spec (drv : SparkFun_APDS9960 D) (x : State D) :
    (setupIntEnable drv x).trace =
      x.trace ++ (Event.driver (DriverCall.setAmbientLightIntEnable 1) ::
        intEnableReport (drv.setAmbientLightIntEnable 1 x.apds).1) ∧
    (setupIntEnable drv x).apds = (drv.setAmbientLightIntEnable 1 x.apds).2 ∧
    (setupIntEnable drv x).threshold = x.threshold := by
  simp only [setupIntEnable, apds_setAmbientLightIntEnable, emit, issue, cout, endl]
  cases (drv.setAmbientLightIntEnable 1 x.apds).1 <;> simp [intEnableReport]

theorem setupPrelude_spec (s : State D) :
    (setupRegister (setupBanner (setupPins s))).trace = s.trace ++
      ([Event.platform PlatformCall.wiringPiSetup,
        Event.platform (PlatformCall.pinMode APDS9960_INT PinMode.INPUT),
        Event.platform (PlatformCall.pinMode LED_PIN PinMode.OUTPUT)] ++ bannerEvents ++
       [Event.platform
         (PlatformCall.wiringPiISR 0 Edge.INT_EDGE_FALLING Handler.interruptRoutine)]) ∧
    (setupRegister (setupBanner (setupPins s))).apds = s.apds ∧
    (setupRegister (setupBanner (setupPins s))).threshold = s.threshold := by
  simp [setupRegister, setupBanner, setupPins, wiringPiISR, wiringPiSetup, pinMode, cout,
    endl, emit, bannerEvents]

theorem setup_trace (drv : SparkFun_APDS9960 D) (s : State D) :
    (setup drv s).trace = s.trace ++ setupEvents drv s := by
  rw [setup_eq_steps]
  simp only [delay, emit, (setupIntEnable_spec drv _).1, (setupIntEnable_spec drv _).2.1,
    (setupReadHigh_spec drv _).1, (setupReadHigh_spec drv _).2.1,
    (setupReadHigh_spec drv _).2.2, (setupReadLow_spec drv _).1,
    (setupReadLow_spec drv _).2.1, (setupReadLow_spec drv _).2.2,
    (setupEnable_spec drv _).1, (setupEnable_spec drv _).2.1, (setupEnable_spec drv _).2.2,
    (setupWriteHigh_spec drv _).1, (setupWriteHigh_spec drv _).2.1,
    (setupWriteHigh_spec drv _).2.2, (setupWriteLow_spec drv _).1,
    (setupWriteLow_spec drv _).2.1, (setupWriteLow_spec drv _).2.2,
    (setupInit_spec drv _).1, (setupInit_spec drv _).2.1, (setupInit_spec drv _).2.2,
    (setupPrelude_spec _).1, (setupPrelude_spec _).2.1, (setupPrelude_spec _).2.2,
    setupEvents, setupEventsOf, initResult, setLowResult, setHighResult, enableResult, getLowResult,
    getHighResult, intEnableResult, List.append_assoc, List.cons_append, List.nil_append,
    List.singleton_append]

theorem initReport_outputs (b : Bool) : ∀ e ∈ initReport b, e.isOutput = true := by
  cases b <;> simp [initReport, Event.isOutput]

theorem writeLowReport_outputs (b : Bool) : ∀ e ∈ writeLowReport b, e.isOutput = true := by
  cases b <;> simp [writeLowReport, Event.isOutput]

theorem writeHighReport_outputs (b : Bool) :
    ∀ e ∈ writeHighReport b, e.isOutput = true := by
  cases b <;> simp [writeHighReport, Event.isOutput]

theorem enableReport_outputs (b : Bool) : ∀ e ∈ enableReport b, e.isOutput = true := by
  cases b <;> simp [enableReport, Event.isOutput]

theorem readLowReport_outputs (b : Bool) (v : Nat) :
    ∀ e ∈ readLowReport b v, e.isOutput = true := by
  cases b <;> simp [readLowReport, Event.isOutput]

theorem readHighReport_outputs (b : Bool) (v : Nat) :
    ∀ e ∈ readHighReport b v, e.isOutput = true := by
  cases b <;> simp [readHighReport, Event.isOutput]

theorem intEnableReport_outputs (b : Bool) :
    ∀ e ∈ intEnableReport b, e.isOutput = true := by
  cases b <;> simp [intEnableReport, Event.isOutput]

theorem filter_outputs_eq_nil (p : Event → Bool)
    (hp : ∀ e : Event, e.isOutput = true → p e = false) (l : List Event)
    (hl : ∀ e ∈ l, e.isOutput = true) : l.filter p = [] := by
  rw [List.filter_eq_nil_iff]
  intro e he
  simp [hp e (hl e he)]

theorem filter_isOutput_eq_self (l : List Event) (hl : ∀ e ∈ l, e.isOutput = true) :
    l.filter Event.isOutput = l := by
  rw [List.filter_eq_self]
  exact hl

theorem setupEventsOf_filter (p : Event → Bool)
    (hp : ∀ e : Event, e.isOutput = true → p e = false)
    (b1 b2 b3 b4 b5 : Bool) (v5 : Nat) (b6 : Bool) (v6 : Nat) (b7 : Bool) :
    (setupEventsOf b1 b2 b3 b4 b5 v5 b6 v6 b7).filter p =
      [Event.platform PlatformCall.wiringPiSetup,
       Event.platform (PlatformCall.pinMode APDS9960_INT PinMode.INPUT),
       Event.platform (PlatformCall.pinMode LED_PIN PinMode.OUTPUT),
       Event.platform
         (PlatformCall.wiringPiISR 0 Edge.INT_EDGE_FALLING Handler.interruptRoutine),
       Event.driver DriverCall.init,
       Event.driver (DriverCall.setLightIntLowThreshold LIGHT_INT_LOW),
       Event.driver (DriverCall.setLightIntHighThreshold LIGHT_INT_HIGH),
       Event.driver (DriverCall.enableLightSensor false),
       Event.driver DriverCall.getLightIntLowThreshold,
       Event.driver DriverCall.getLightIntHighThreshold,
       Event.driver (DriverCall.setAmbientLightIntEnable 1),
       Event.platform (PlatformCall.delay 500)].filter p := by
  have hb : bannerEvents.filter p = [] :=
    filter_outputs_eq_nil p hp _ (by simp [bannerEvents, Event.isOutput])
  simp only [setupEventsOf, List.filter_append, hb,
    filter_outputs_eq_nil p hp _ (initReport_outputs _),
    filter_outputs_eq_nil p hp _ (writeLowReport_outputs _),
    filter_outputs_eq_nil p hp _ (writeHighReport_outputs _),
    filter_outputs_eq_nil p hp _ (enableReport_outputs _),
    filter_outputs_eq_nil p hp _ (readLowReport_outputs _ _),
    filter_outputs_eq_nil p hp _ (readHighReport_outputs _ _),
    filter_outputs_eq_nil p hp _ (intEnableReport_outputs _), List.append_nil]
  simp only [← List.filter_append]
  rfl

theorem setupEventsOf_outputs (b1 b2 b3 b4 b5 : Bool) (v5 : Nat) (b6 : Bool) (v6 : Nat)
    (b7 : Bool) :
    (setupEventsOf b1 b2 b3 b4 b5 v5 b6 v6 b7).filter Event.isOutput =
      bannerEvents ++ initReport b1 ++ writeLowReport b2 ++ writeHighReport b3 ++
        enableReport b4 ++ readLowReport b5 v5 ++ readHighReport b6 v6 ++
        intEnableReport b7 := by
  have hb : bannerEvents.filter Event.isOutput = bannerEvents :=
    filter_isOutput_eq_self _ (by simp [bannerEvents, Event.isOutput])
  simp only [setupEventsOf, List.filter_append, hb,
    filter_isOutput_eq_self _ (initReport_outputs _),
    filter_isOutput_eq_self _ (writeLowReport_outputs _),
    filter_isOutput_eq_self _ (writeHighReport_outputs _),
    filter_isOutput_eq_self _ (enableReport_outputs _),
    filter_isOutput_eq_self _ (readLowReport_outputs _ _),
    filter_isOutput_eq_self _ (readHighReport_outputs _ _),
    filter_isOutput_eq_self _ (intEnableReport_outputs _)]
  simp [Event.isOutput]

theorem mem_initReport (m : String) (b : Bool) :
    Event.cout m ∈ initReport b ↔
      (b = true ∧ m = "APDS-9960 initialization complete") ∨
      (b = false ∧ m = "Something went wrong during APDS-9960 init!") := by
  cases b <;> simp [initReport]

theorem mem_writeLowReport (m : String) (b : Bool) :
    Event.cout m ∈ writeLowReport b ↔ (b = false ∧ m = "Error writing low threshold") := by
  cases b <;> simp [writeLowReport]

theorem mem_writeHighReport (m : String) (b : Bool) :
    Event.cout m ∈ writeHighReport b ↔ (b = false ∧ m = "Error writing high threshold") := by
  cases b <;> simp [writeHighReport]

theorem mem_enableReport (m : String) (b : Bool) :
    Event.cout m ∈ enableReport b ↔
      (b = true ∧ m = "Light sensor is now running") ∨
      (b = false ∧ m = "Something went wrong during light sensor init!") := by
  cases b <;> simp [enableReport]

theorem mem_readLowReport (m : String) (b : Bool) (v : Nat) :
    Event.cout m ∈ readLowReport b v ↔
      (b = true ∧ m = "Low Threshold: ") ∨
      (b = false ∧ m = "Error reading low threshold") := by
  cases b <;> simp [readLowReport]

theorem mem_readHighReport (m : String) (b : Bool) (v : Nat) :
    Event.cout m ∈ readHighReport b v ↔
      (b = true ∧ m = "High Threshold: ") ∨
      (b = false ∧ m = "Error reading high threshold") := by
  cases b <;> simp [readHighReport]

theorem mem_intEnableReport (m : String) (b : Bool) :
    Event.cout m ∈ intEnableReport b ↔ (b = false ∧ m = "Error enabling interrupts") := by
  cases b <;> simp [intEnableReport]

theorem mem_setupEventsOf (m : String) (b1 b2 b3 b4 b5 : Bool) (v5 : Nat) (b6 : Bool)
    (v6 : Nat) (b7 : Bool) :
    Event.cout m ∈ setupEventsOf b1 b2 b3 b4 b5 v5 b6 v6 b7 ↔
      Event.cout m ∈ bannerEvents ∨ Event.cout m ∈ initReport b1 ∨
      Event.cout m ∈ writeLowReport b2 ∨ Event.cout m ∈ writeHighReport b3 ∨
      Event.cout m ∈ enableReport b4 ∨ Event.cout m ∈ readLowReport b5 v5 ∨
      Event.cout m ∈ readHighReport b6 v6 ∨ Event.cout m ∈ intEnableReport b7 := by
  simp only [setupEventsOf, List.mem_append, List.mem_cons, List.mem_singleton,
    List.not_mem_nil, reduceCtorEq, false_or, or_false, or_assoc]

theorem setupEventsOf_messages (b1 b2 b3 b4 b5 : Bool) (v5 : Nat) (b6 : Bool) (v6 : Nat)
    (b7 : Bool) :
    (Event.cout "Something went wrong during APDS-9960 init!" ∈
      setupEventsOf b1 b2 b3 b4 b5 v5 b6 v6 b7 ↔ b1 = false) ∧
    (Event.cout "Error writing low threshold" ∈
      setupEventsOf b1 b2 b3 b4 b5 v5 b6 v6 b7 ↔ b2 = false) ∧
    (Event.cout "Error writing high threshold" ∈
      setupEventsOf b1 b2 b3 b4 b5 v5 b6 v6 b7 ↔ b3 = false) ∧
    (Event.cout "Something went wrong during light sensor init!" ∈
      setupEventsOf b1 b2 b3 b4 b5 v5 b6 v6 b7 ↔ b4 = false) ∧
    (Event.cout "Error reading low threshold" ∈
      setupEventsOf b1 b2 b3 b4 b5 v5 b6 v6 b7 ↔ b5 = false) ∧
    (Event.cout "Error reading high threshold" ∈
      setupEventsOf b1 b2 b3 b4 b5 v5 b6 v6 b7 ↔ b6 = false) ∧
    (Event.cout "Error enabling interrupts" ∈
      setupEventsOf b1 b2 b3 b4 b5 v5 b6 v6 b7 ↔ b7 = false) := by
  simp only [mem_setupEventsOf, mem_initReport, mem_writeLowReport, mem_writeHighReport,
    mem_enableReport, mem_readLowReport, mem_readHighReport, mem_intEnableReport,
    bannerEvents, List.mem_cons, List.mem_singleton, List.not_mem_nil, reduceCtorEq,
    Event.cout.injEq, String.reduceEq, and_false, and_true, or_false, false_or, or_self]

theorem setup_threshold (drv : SparkFun_APDS9960 D) (s : State D) :
    (setup drv s).threshold = u16 (getHighResult drv s).2.1 := by
  rw [setup_eq_steps]
  simp only [delay, emit, (setupIntEnable_spec drv _).2.1, (setupIntEnable_spec drv _).2.2,
    (setupReadHigh_spec drv _).2.1, (setupReadHigh_spec drv _).2.2,
    (setupReadLow_spec drv _).2.1, (setupReadLow_spec drv _).2.2,
    (setupEnable_spec drv _).2.1, (setupEnable_spec drv _).2.2,
    (setupWriteHigh_spec drv _).2.1, (setupWriteHigh_spec drv _).2.2,
    (setupWriteLow_spec drv _).2.1, (setupWriteLow_spec drv _).2.2,
    (setupInit_spec drv _).2.1, (setupInit_spec drv _).2.2,
    (setupPrelude_spec _).2.1, (setupPrelude_spec _).2.2,
    initResult, setLowResult, setHighResult, enableResult, getLowResult, getHighResult]

theorem faithfulStore_readback (drv : SparkFun_APDS9960 D) (low high : D → Nat) (s : State D)
    (h : FaithfulStore drv low high) :
    (setLowResult drv s).1 = true ∧ (setHighResult drv s).1 = true ∧
    (getLowResult drv s).1 = true ∧ (getLowResult drv s).2.1 = LIGHT_INT_LOW ∧
    (getHighResult drv s).1 = true ∧ (getHighResult drv s).2.1 = LIGHT_INT_HIGH := by
  have b10 : LIGHT_INT_LOW < 65536 := by decide
  have b1000 : LIGHT_INT_HIGH < 65536 := by decide
  have hl : low (enableResult drv s).2 = LIGHT_INT_LOW := by
    simp only [enableResult, setHighResult, setLowResult]
    rw [h.enable_low, h.setHigh_low _ _ b1000, h.setLow_low _ _ b10]
  have hh : high (getLowResult drv s).2.2 = LIGHT_INT_HIGH := by
    simp only [getLowResult, enableResult, setHighResult]
    rw [h.getLow_high, h.enable_high, h.setHigh_high _ _ b1000]
  refine ⟨h.setLow_ok _ _ b10, h.setHigh_ok _ _ b1000, h.getLow_ok _ _, ?_,
    h.getHigh_ok _ _, ?_⟩
  · simp only [getLowResult]
    rw [h.getLow_value]
    exact hl
  · simp only [getHighResult]
    rw [h.getHigh_value]
    exact hh

theorem registerStore_faithful : FaithfulStore registerStore Prod.fst Prod.snd := by
  constructor <;> intros <;> first | rfl | exact Nat.mod_eq_of_lt (by assumption)

/-! ## Properties of `setup` -/

/-- C7: `setup()` registers `interruptRoutine` exactly once, for the falling edge, but
on pin 0: that is `LED_PIN`, which `setup()` has just configured as an output, and not
`APDS9960_INT` (pin 7), the pin it configured as an input.  No handler is registered
on `APDS9960_INT`. -/
theorem setup_registers_handler_on_led_pin (drv : SparkFun_APDS9960 D) (s : State D) :
    (newEvents s (setup drv s)).filter Event.isRegistration =
      [Event.platform
        (PlatformCall.wiringPiISR LED_PIN Edge.INT_EDGE_FALLING Handler.interruptRoutine)] ∧
    LED_PIN ≠ APDS9960_INT ∧
    Event.platform (PlatformCall.pinMode APDS9960_INT PinMode.INPUT) ∈
      newEvents s (setup drv s) ∧
    Event.platform (PlatformCall.pinMode LED_PIN PinMode.OUTPUT) ∈
      newEvents s (setup drv s) ∧
    Event.platform (PlatformCall.pinMode LED_PIN PinMode.INPUT) ∉
      newEvents s (setup drv s) ∧
    (∀ (edge : Edge) (handler : Handler),
      Event.platform (PlatformCall.wiringPiISR APDS9960_INT edge handler) ∉
        newEvents s (setup drv s)) := by
  have hcalls : (newEvents s (setup drv s)).filter Event.isCall =
      [Event.platform PlatformCall.wiringPiSetup,
       Event.platform (PlatformCall.pinMode APDS9960_INT PinMode.INPUT),
       Event.platform (PlatformCall.pinMode LED_PIN PinMode.OUTPUT),
       Event.platform
         (PlatformCall.wiringPiISR 0 Edge.INT_EDGE_FALLING Handler.interruptRoutine),
       Event.driver DriverCall.init,
       Event.driver (DriverCall.setLightIntLowThreshold 10),
       Event.driver (DriverCall.setLightIntHighThreshold 1000),
       Event.driver (DriverCall.enableLightSensor false),
       Event.driver DriverCall.getLightIntLowThreshold,
       Event.driver DriverCall.getLightIntHighThreshold,
       Event.driver (DriverCall.setAmbientLightIntEnable 1),
       Event.platform (PlatformCall.delay 500)] := by
    rw [newEvents_of_trace (setup_trace drv s), setupEvents,
      setupEventsOf_filter Event.isCall
        (by intro e; cases e <;> simp [Event.isOutput, Event.isCall])]
    rfl
  have hmem : ∀ c : PlatformCall, Event.platform c ∈ newEvents s (setup drv s) ↔
      Event.platform c ∈ (newEvents s (setup drv s)).filter Event.isCall := by
    intro c
    simp [List.mem_filter, Event.isCall]
  refine ⟨?_, by decide, ?_, ?_, ?_, ?_⟩
  · rw [newEvents_of_trace (setup_trace drv s), setupEvents,
      setupEventsOf_filter Event.isRegistration
        (by intro e; cases e <;> simp [Event.isOutput, Event.isRegistration])]
    rfl
  · rw [hmem, hcalls]; decide
  · rw [hmem, hcalls]; decide
  · rw [hmem, hcalls]; decide
  · intro edge handler
    rw [hmem, hcalls]
    cases edge <;> cases handler <;> decide

/-- C8: whatever the driver calls of `setup()` return, `setup()` makes the same calls in
the same order: `wiringPiSetup`, the two `pinMode` calls, `wiringPiISR`, then `init`,
`setLightIntLowThreshold(10)`, `setLightIntHighThreshold(1000)`,
`enableLightSensor(false)`, `getLightIntLowThreshold`, `getLightIntHighThreshold`,
`setAmbientLightIntEnable(1)`, and `delay(500)` as its last action.  The results only
select the text written: each failure message is written exactly when its own call
returned failure. -/
theorem setup_is_best_effort (drv : SparkFun_APDS9960 D) (s : State D) :
    (newEvents s (setup drv s)).filter Event.isCall =
      [Event.platform PlatformCall.wiringPiSetup,
       Event.platform (PlatformCall.pinMode APDS9960_INT PinMode.INPUT),
       Event.platform (PlatformCall.pinMode LED_PIN PinMode.OUTPUT),
       Event.platform
         (PlatformCall.wiringPiISR 0 Edge.INT_EDGE_FALLING Handler.interruptRoutine),
       Event.driver DriverCall.init,
       Event.driver (DriverCall.setLightIntLowThreshold 10),
       Event.driver (DriverCall.setLightIntHighThreshold 1000),
       Event.driver (DriverCall.enableLightSensor false),
       Event.driver DriverCall.getLightIntLowThreshold,
       Event.driver DriverCall.getLightIntHighThreshold,
       Event.driver (DriverCall.setAmbientLightIntEnable 1),
       Event.platform (PlatformCall.delay 500)] ∧
    (newEvents s (setup drv s)).filter Event.isDriverCall =
      [Event.driver DriverCall.init,
       Event.driver (DriverCall.setLightIntLowThreshold 10),
       Event.driver (DriverCall.setLightIntHighThreshold 1000),
       Event.driver (DriverCall.enableLightSensor false),
       Event.driver DriverCall.getLightIntLowThreshold,
       Event.driver DriverCall.getLightIntHighThreshold,
       Event.driver (DriverCall.setAmbientLightIntEnable 1)] ∧
    (setup drv s).trace.getLast? = some (Event.platform (PlatformCall.delay 500)) ∧
    (setup drv s).trace = s.trace ++
      setupEventsOf (initResult drv s).1 (setLowResult drv s).1 (setHighResult drv s).1
        (enableResult drv s).1 (getLowResult drv s).1 (getLowResult drv s).2.1
        (getHighResult drv s).1 (getHighResult drv s).2.1 (intEnableResult drv s).1 ∧
    (Event.cout "Something went wrong during APDS-9960 init!" ∈ newEvents s (setup drv s) ↔
      (initResult drv s).1 = false) ∧
    (Event.cout "Error writing low threshold" ∈ newEvents s (setup drv s) ↔
      (setLowResult drv s).1 = false) ∧
    (Event.cout "Error writing high threshold" ∈ newEvents s (setup drv s) ↔
      (setHighResult drv s).1 = false) ∧
    (Event.cout "Something went wrong during light sensor init!" ∈
      newEvents s (setup drv s) ↔ (enableResult drv s).1 = false) ∧
    (Event.cout "Error reading low threshold" ∈ newEvents s (setup drv s) ↔
      (getLowResult drv s).1 = false) ∧
    (Event.cout "Error reading high threshold" ∈ newEvents s (setup drv s) ↔
      (getHighResult drv s).1 = false) ∧
    (Event.cout "Error enabling interrupts" ∈ newEvents s (setup drv s) ↔
      (intEnableResult drv s).1 = false) := by
  refine ⟨?_, ?_, ?_, setup_trace drv s, ?_⟩
  · rw [newEvents_of_trace (setup_trace drv s), setupEvents,
      setupEventsOf_filter Event.isCall
        (by intro e; cases e <;> simp [Event.isOutput, Event.isCall])]
    rfl
  · rw [newEvents_of_trace (setup_trace drv s), setupEvents,
      setupEventsOf_filter Event.isDriverCall
        (by intro e; cases e <;> simp [Event.isOutput, Event.isDriverCall])]
    rfl
  · rw [setup_eq_steps]
    simp [delay, emit]
  · rw [newEvents_of_trace (setup_trace drv s), setupEvents]
    exact setupEventsOf_messages _ _ _ _ _ _ _ _ _

/-- C9: with a driver that is a faithful store, the thresholds `setup()` reads back are
the ones it wrote, `LIGHT_INT_LOW` = 10 and `LIGHT_INT_HIGH` = 1000; `setup()` reports
"Low Threshold: 10" and "High Threshold: 1000", in that order and one right after the
other, and reports no threshold read or write error; `threshold` ends at 1000. -/
theorem setup_threshold_round_trip (drv : SparkFun_APDS9960 D) (low high : D → Nat)
    (s : State D) (hstore : FaithfulStore drv low high) :
    (getLowResult drv s).2.1 = LIGHT_INT_LOW ∧
    (getHighResult drv s).2.1 = LIGHT_INT_HIGH ∧
    [Event.cout "Low Threshold: ", Event.coutU16 LIGHT_INT_LOW, Event.endl,
     Event.cout "High Threshold: ", Event.coutU16 LIGHT_INT_HIGH, Event.endl] <:+:
      (newEvents s (setup drv s)).filter Event.isOutput ∧
    console [Event.cout "Low Threshold: ", Event.coutU16 LIGHT_INT_LOW, Event.endl,
      Event.cout "High Threshold: ", Event.coutU16 LIGHT_INT_HIGH, Event.endl] =
        "Low Threshold: 10\nHigh Threshold: 1000\n" ∧
    (∀ m ∈ ["Error writing low threshold", "Error writing high threshold",
            "Error reading low threshold", "Error reading high threshold"],
      Event.cout m ∉ newEvents s (setup drv s)) ∧
    (setup drv s).threshold = LIGHT_INT_HIGH := by
  obtain ⟨hw1, hw2, hl1, hl2, hh1, hh2⟩ := faithfulStore_readback drv low high s hstore
  have hmsg := setupEventsOf_messages (initResult drv s).1 (setLowResult drv s).1
    (setHighResult drv s).1 (enableResult drv s).1 (getLowResult drv s).1
    (getLowResult drv s).2.1 (getHighResult drv s).1 (getHighResult drv s).2.1
    (intEnableResult drv s).1
  have hnew : newEvents s (setup drv s) = setupEventsOf (initResult drv s).1
      (setLowResult drv s).1 (setHighResult drv s).1 (enableResult drv s).1
      (getLowResult drv s).1 (getLowResult drv s).2.1 (getHighResult drv s).1
      (getHighResult drv s).2.1 (intEnableResult drv s).1 :=
    newEvents_of_trace (setup_trace drv s)
  rw [← hnew] at hmsg
  obtain ⟨-, m2, m3, -, m5, m6, -⟩ := hmsg
  refine ⟨hl2, hh2, ?_, by decide, ?_, ?_⟩
  · rw [hnew, setupEventsOf_outputs, hl1, hl2, hh1, hh2]
    refine ⟨bannerEvents ++ initReport (initResult drv s).1 ++
      writeLowReport (setLowResult drv s).1 ++ writeHighReport (setHighResult drv s).1 ++
      enableReport (enableResult drv s).1, intEnableReport (intEnableResult drv s).1, ?_⟩
    simp [readLowReport, readHighReport, u16, LIGHT_INT_LOW, LIGHT_INT_HIGH]
  · intro m hm
    simp only [List.mem_cons, List.mem_singleton, List.not_mem_nil, or_false] at hm
    rcases hm with rfl | rfl | rfl | rfl
    · rw [m2, hw1]; decide
    · rw [m3, hw2]; decide
    · rw [m5, hl1]; decide
    · rw [m6, hh1]; decide
  · rw [setup_threshold, hh2]
    decide

/-- Witness for C9 on `registerStore`, started with other values in its registers. -/
theorem setup_threshold_round_trip_witness :
    FaithfulStore registerStore Prod.fst Prod.snd ∧
    ((getLowResult registerStore (State.start (7, 9))).2.1 = LIGHT_INT_LOW ∧
    (getHighResult registerStore (State.start (7, 9))).2.1 = LIGHT_INT_HIGH ∧
    [Event.cout "Low Threshold: ", Event.coutU16 LIGHT_INT_LOW, Event.endl,
     Event.cout "High Threshold: ", Event.coutU16 LIGHT_INT_HIGH, Event.endl] <:+:
      (newEvents (State.start (7, 9))
        (setup registerStore (State.start (7, 9)))).filter Event.isOutput ∧
    console [Event.cout "Low Threshold: ", Event.coutU16 LIGHT_INT_LOW, Event.endl,
      Event.cout "High Threshold: ", Event.coutU16 LIGHT_INT_HIGH, Event.endl] =
        "Low Threshold: 10\nHigh Threshold: 1000\n" ∧
    (∀ m ∈ ["Error writing low threshold", "Error writing high threshold",
            "Error reading low threshold", "Error reading high threshold"],
      Event.cout m ∉
        newEvents (State.start (7, 9)) (setup registerStore (State.start (7, 9)))) ∧
    (setup registerStore (State.start (7, 9))).threshold = LIGHT_INT_HIGH) :=
  ⟨registerStore_faithful,
    setup_threshold_round_trip registerStore Prod.fst Prod.snd (State.start (7, 9))
      registerStore_faithful⟩

end AmbientLightInterrupt
